import Mathlib

/-!
Verification of the CIVIC-OS core components (audit gate, falsifier engine,
metrics helpers, signed append-only log) against their specification.

The Python sources are shallowly embedded:
* Python values flowing through the audit gate and metrics code are modelled by
  the inductive `PyVal`; numeric values are modelled as exact rationals
  (IEEE-754 rounding of literals such as `0.10` is outside the model).
* Exceptions are modelled with `Except Unit` (the code under verification never
  inspects exception payloads).
* Impure timestamps (`datetime.now`) are passed in as an explicit `now` string.
* Python `float(str)` parsing is modelled for plain decimal literals with an
  optional exponent; `inf`/`nan`/underscore separators are outside the model.
-/

set_option maxRecDepth 2000000

namespace CivicOS

/-- A Python value as used by the CIVIC-OS modules: `None`, booleans, ints,
floats (modelled as exact rationals), strings, lists, and dicts (modelled as
association lists with unique keys, in insertion order). -/
inductive PyVal where
  | none : PyVal
  | bool (b : Bool) : PyVal
  | int (n : Int) : PyVal
  | float (q : ℚ) : PyVal
  | str (s : String) : PyVal
  | list (xs : List PyVal) : PyVal
  | dict (kvs : List (String × PyVal)) : PyVal

/-- Python truthiness: `None`, `False`, `0`, `0.0`, `""`, `[]` and `\x7b\x7d`
are falsy, everything else is truthy. -/
def truthy : PyVal → Bool
  | .none => false
  | .bool b => b
  | .int n => n != 0
  | .float q => decide (q ≠ 0)
  | .str s => s != ""
  | .list xs => !xs.isEmpty
  | .dict kvs => !kvs.isEmpty

/-- `d.get(k)` on a Python dict, defaulting to `None` (keys are unique, so the
first match is the binding). -/
def dictGet (kvs : List (String × PyVal)) (k : String) : PyVal :=
  match kvs.find? (fun p => p.1 == k) with
  | some p => p.2
  | Option.none => .none

/-- Python `a or b` on values: `a` if truthy, else `b`. -/
def pyOr (a b : PyVal) : PyVal := if truthy a then a else b

/-- `d[k] = v` on a Python dict: replace the binding in place if the key is
present, else append it. -/
def dictSet (kvs : List (String × PyVal)) (k : String) (v : PyVal) :
    List (String × PyVal) :=
  if kvs.any (fun p => p.1 == k) then
    kvs.map (fun p => if p.1 == k then (k, v) else p)
  else kvs ++ [(k, v)]

/-- Python dict merge `\x7b**a, **b\x7d`: entries of `b` overwrite those of `a`. -/
def dictMerge (a b : List (String × PyVal)) : List (String × PyVal) :=
  b.foldl (fun acc p => dictSet acc p.1 p.2) a

/-- Is the value a Python dict? (`isinstance(x, dict)`). -/
def isDict : PyVal → Bool
  | .dict _ => true
  | _ => false

/-- The ASCII whitespace characters stripped by Python's `str.strip()`
(further Unicode whitespace is outside the model). -/
def pyIsSpace (c : Char) : Bool :=
  c = ' ' || c = '\t' || c = '\n' || c = '\r' || c = '\x0b' || c = '\x0c'

/-- Drop leading Python whitespace from a character list. -/
def dropLeadingWs : List Char → List Char
  | c :: cs => if pyIsSpace c then dropLeadingWs cs else c :: cs
  | [] => []

/-- Python `s.strip()`. -/
def pyStrip (s : String) : String :=
  String.mk (((dropLeadingWs s.data.reverse).reverse |> dropLeadingWs))

/-- Digit value of a decimal digit character. -/
def digitVal (c : Char) : Nat := c.toNat - 48

/-- Split a leading run of decimal digits off a character list. -/
def takeDigits : List Char → List Nat × List Char
  | [] => ([], [])
  | c :: cs =>
    if c.isDigit then
      let r := takeDigits cs
      (digitVal c :: r.1, r.2)
    else ([], c :: cs)

/-- Decimal digits to a natural number. -/
def natOfDigits (ds : List Nat) : Nat := ds.foldl (fun a d => a * 10 + d) 0

/-- Parse the optional exponent part of a Python float literal applied to a
mantissa, requiring the rest of the input to be consumed. -/
def parseExpPart (m : ℚ) : List Char → Option ℚ
  | [] => some m
  | c :: cs =>
    if c = 'e' ∨ c = 'E' then
      let (sgn, cs') : Int × List Char :=
        match cs with
        | '+' :: r => (1, r)
        | '-' :: r => (-1, r)
        | r => (1, r)
      let (ds, rest) := takeDigits cs'
      if ds.isEmpty ∨ !rest.isEmpty then Option.none
      else some (m * (10 : ℚ) ^ (sgn * (natOfDigits ds : Int)))
    else Option.none

/-- Parse an unsigned Python float literal (`12`, `12.`, `.5`, `3.25e-2`, ...). -/
def parseUnsignedFloat (cs : List Char) : Option ℚ :=
  let (ip, r1) := takeDigits cs
  match r1 with
  | '.' :: r2 =>
    let (fp, r3) := takeDigits r2
    if ip.isEmpty ∧ fp.isEmpty then Option.none
    else
      parseExpPart ((natOfDigits ip : ℚ) + (natOfDigits fp : ℚ) / (10 : ℚ) ^ fp.length) r3
  | _ => if ip.isEmpty then Option.none else parseExpPart (natOfDigits ip : ℚ) r1

/-- Python `float(s)` on a string: strip surrounding whitespace, optional sign,
then a decimal literal with optional exponent; `None` when parsing fails. -/
def parseFloat (s : String) : Option ℚ :=
  match (pyStrip s).data with
  | '+' :: cs => parseUnsignedFloat cs
  | '-' :: cs => (parseUnsignedFloat cs).map (fun q => -q)
  | cs => parseUnsignedFloat cs

/-- `_num` from `falsifier_engine.py`: `float(x)` with all exceptions swallowed
to `None`.  Booleans convert (`float(True) == 1.0`), strings are parsed, lists
and dicts raise `TypeError` which is caught. -/
def numF : PyVal → Option ℚ
  | .none => Option.none
  | .bool b => some (if b then 1 else 0)
  | .int n => some (n : ℚ)
  | .float q => some q
  | .str s => parseFloat s
  | .list _ => Option.none
  | .dict _ => Option.none

/-- `_num` from `metrics.py`: identical to the falsifier engine's `_num` except
that booleans are explicitly rejected (`isinstance(x, bool)` returns `None`). -/
def numM : PyVal → Option ℚ
  | .none => Option.none
  | .bool _ => Option.none
  | .int n => some (n : ℚ)
  | .float q => some q
  | .str s => parseFloat s
  | .list _ => Option.none
  | .dict _ => Option.none

/-- `_pct_change` as defined (identically) in both `metrics.py` and
`falsifier_engine.py`: `None` if either argument is `None` or the baseline is
zero, else `(cur - base) / abs(base)`. -/
def pct_change (cur base : Option ℚ) : Option ℚ :=
  match cur, base with
  | some c, some b => if b = 0 then Option.none else some ((c - b) / |b|)
  | _, _ => Option.none

/-- The per-key percentage-change computation performed by the loop body of
`Metrics.compute_deltas` in `metrics.py`:
`pct[k] = _pct_change(_num(cur.get(k)), _num(base.get(k)) if base else None)`. -/
def metricsPctAt (cur : List (String × PyVal)) (base : Option (List (String × PyVal)))
    (k : String) : Option ℚ :=
  pct_change (numM (dictGet cur k))
    (match base with
     | some bs => if bs.isEmpty then Option.none else numM (dictGet bs k)
     | Option.none => Option.none)

/-! ### Falsifier engine (`falsifier_engine.py`) -/

/-- The threshold set of `FalsifierEngine.__init__`.  The Python code keeps a
dict with exactly these seven keys (defaults overlaid with the caller's
overrides via `dict.update`); every rule reads one of the seven, so the merged
configuration is modelled as a record quantified over in the theorems. -/
structure Thresholds where
  latency_improve : ℚ
  error_worsen : ℚ
  throughput_improve : ℚ
  disparity_worsen : ℚ
  transparency_min : ℚ
  burden_worsen : ℚ
  shadow_paperwork_worsen : ℚ

/-- The default thresholds from `FalsifierEngine.__init__` (exact rationals,
written with `mkRat` so they evaluate definitionally: `-0.10 = mkRat (-1) 10`
and so on). -/
def defaultThresholds : Thresholds :=
  { latency_improve := mkRat (-1) 10
    error_worsen := mkRat 1 10
    throughput_improve := mkRat 1 10
    disparity_worsen := mkRat 1 20
    transparency_min := mkRat 3 5
    burden_worsen := mkRat 1 20
    shadow_paperwork_worsen := mkRat 1 10 }

/-- Constructor-time configuration of a `FalsifierEngine`. -/
structure FalsifierConfig where
  thresholds : Thresholds
  require_baseline : Bool

/-- `MetricsSnapshot` from `falsifier_engine.py`. -/
structure MetricsSnapshot where
  current : List (String × PyVal)
  baseline : Option (List (String × PyVal))
  window : String
  metadata : List (String × PyVal)

/-- `FalsifierHit` from `falsifier_engine.py`. -/
structure FalsifierHit where
  code : String
  title : String
  severity : String
  evidence : List (String × PyVal)
  recommendation : String

/-- `FalsifierResult` from `falsifier_engine.py`. -/
structure FalsifierResult where
  timestamp_utc : String
  verdict : String
  hits : List FalsifierHit
  summary : String
  recommended_actions : List String
  metadata : List (String × PyVal)

/-- Truthiness of the optional baseline dict (`if base`, `not base`): `None`
and the empty dict are falsy. -/
def baseTruthy : Option (List (String × PyVal)) → Bool
  | some kvs => !kvs.isEmpty
  | Option.none => false

/-- The local helper `ch(key)` of `FalsifierEngine.evaluate`:
`_pct_change(_num(cur.get(key)), _num(base.get(key)) if base else None)`. -/
def chKey (cur : List (String × PyVal)) (base : Option (List (String × PyVal)))
    (key : String) : Option ℚ :=
  pct_change (numF (dictGet cur key))
    (if baseTruthy base then numF (dictGet (base.getD []) key) else Option.none)

/-- Hits appended by the `baseline_missing` check. -/
def hits_baseline_missing (cfg : FalsifierConfig) (snap : MetricsSnapshot) :
    List FalsifierHit :=
  if cfg.require_baseline && !baseTruthy snap.baseline then
    [{ code := "baseline_missing"
       title := "Baseline missing (cannot compute falsifiers reliably)"
       severity := "MEDIUM"
       evidence := [("window", .str snap.window)]
       recommendation := "Provide baseline metrics (pre-change) or mark this as exploratory pilot only." }]
  else []

/-- Actions appended by the `baseline_missing` check. -/
def actions_baseline_missing (cfg : FalsifierConfig) (snap : MetricsSnapshot) :
    List String :=
  if cfg.require_baseline && !baseTruthy snap.baseline then
    ["เติม baseline metrics ก่อนสรุปผล (หรือประกาศว่าเป็น pilot exploratory)"]
  else []

/-- Hits appended by rule 1, `latency_down_errors_up`. -/
def hits_latency_down_errors_up (cfg : FalsifierConfig) (snap : MetricsSnapshot) :
    List FalsifierHit :=
  match chKey snap.current snap.baseline "service_latency_median",
      chKey snap.current snap.baseline "error_rate" with
  | some lc, some ec =>
    if lc ≤ cfg.thresholds.latency_improve ∧ ec ≥ cfg.thresholds.error_worsen then
      [{ code := "latency_down_errors_up"
         title := "Latency improved but error rate worsened (dashboard theatre risk)"
         severity := "HIGH"
         evidence := [("service_latency_median_change", .float lc),
                      ("error_rate_change", .float ec)]
         recommendation := "Trigger rollback or tighten validation gates; optimize correctness before speed." }]
    else []
  | _, _ => []

/-- Actions appended by rule 1. -/
def actions_latency_down_errors_up (cfg : FalsifierConfig) (snap : MetricsSnapshot) :
    List String :=
  match chKey snap.current snap.baseline "service_latency_median",
      chKey snap.current snap.baseline "error_rate" with
  | some lc, some ec =>
    if lc ≤ cfg.thresholds.latency_improve ∧ ec ≥ cfg.thresholds.error_worsen then
      ["สั่งหยุดขยายผล (freeze rollout) และทำ rollback หากจำเป็น",
       "เพิ่ม Audit/Validation ขั้นกลางก่อนจุดอนุมัติ (ลด error ก่อนลดเวลา)"]
    else []
  | _, _ => []

/-- Hits appended by rule 2, `throughput_up_disparity_up`. -/
def hits_throughput_up_disparity_up (cfg : FalsifierConfig) (snap : MetricsSnapshot) :
    List FalsifierHit :=
  match chKey snap.current snap.baseline "throughput",
      chKey snap.current snap.baseline "disparity_index" with
  | some tc, some dc =>
    if tc ≥ cfg.thresholds.throughput_improve ∧ dc ≥ cfg.thresholds.disparity_worsen then
      [{ code := "throughput_up_disparity_up"
         title := "Throughput improved but disparity widened (fairness regression)"
         severity := "HIGH"
         evidence := [("throughput_change", .float tc),
                      ("disparity_index_change", .float dc)]
         recommendation := "Pause scaling; add equity constraints and re-run pilot with bias monitoring." }]
    else []
  | _, _ => []

/-- Actions appended by rule 2. -/
def actions_throughput_up_disparity_up (cfg : FalsifierConfig) (snap : MetricsSnapshot) :
    List String :=
  match chKey snap.current snap.baseline "throughput",
      chKey snap.current snap.baseline "disparity_index" with
  | some tc, some dc =>
    if tc ≥ cfg.thresholds.throughput_improve ∧ dc ≥ cfg.thresholds.disparity_worsen then
      ["หยุด scale และใส่ equity constraints (สิทธิ/การเข้าถึง) เป็นเงื่อนไขบังคับ",
       "เพิ่ม monitoring แยกตามพื้นที่/กลุ่ม และตั้ง threshold disparity"]
    else []
  | _, _ => []

/-- Hits appended by rule 3, `transparency_claims_unverifiable_logs`: fires on
the current value alone, with a strict `<` comparison against
`transparency_min` (the computed `trans_change` is dead code in the source and
is not modelled). -/
def hits_transparency_low (cfg : FalsifierConfig) (snap : MetricsSnapshot) :
    List FalsifierHit :=
  match numF (dictGet snap.current "transparency_coverage") with
  | some t =>
    if t < cfg.thresholds.transparency_min then
      [{ code := "transparency_claims_unverifiable_logs"
         title := "Transparency coverage below minimum (claims not supportable)"
         severity := "MEDIUM"
         evidence := [("transparency_coverage", .float t),
                      ("min_required", .float cfg.thresholds.transparency_min)]
         recommendation := "Increase traceability/logging coverage before claiming transparency improvements." }]
    else []
  | Option.none => []

/-- Actions appended by rule 3. -/
def actions_transparency_low (cfg : FalsifierConfig) (snap : MetricsSnapshot) :
    List String :=
  match numF (dictGet snap.current "transparency_coverage") with
  | some t =>
    if t < cfg.thresholds.transparency_min then
      ["เพิ่ม trace/log coverage ให้เกินเกณฑ์ขั้นต่ำก่อนประกาศความโปร่งใส"]
    else []
  | Option.none => []

/-- Hits appended by rule 4, `shadow_paperwork_grows`. -/
def hits_shadow_paperwork_grows (cfg : FalsifierConfig) (snap : MetricsSnapshot) :
    List FalsifierHit :=
  match chKey snap.current snap.baseline "shadow_paperwork_index" with
  | some sc =>
    if sc ≥ cfg.thresholds.shadow_paperwork_worsen then
      [{ code := "shadow_paperwork_grows"
         title := "Shadow paperwork increased (work shifted outside the system)"
         severity := "HIGH"
         evidence := [("shadow_paperwork_index_change", .float sc)]
         recommendation := "Stop rollout; redesign workflow to eliminate off-system steps; audit incentives." }]
    else []
  | Option.none => []

/-- Actions appended by rule 4. -/
def actions_shadow_paperwork_grows (cfg : FalsifierConfig) (snap : MetricsSnapshot) :
    List String :=
  match chKey snap.current snap.baseline "shadow_paperwork_index" with
  | some sc =>
    if sc ≥ cfg.thresholds.shadow_paperwork_worsen then
      ["หยุด rollout และ map ขั้นตอนเงา (shadow steps) ออกมาให้ครบ",
       "ปรับ incentive/KPI ให้รางวัลกับ outcome ไม่ใช่การหลบระบบ"]
    else []
  | Option.none => []

/-- Hits appended by rule 5, `citizen_burden_up_after_digital`. -/
def hits_citizen_burden_up (cfg : FalsifierConfig) (snap : MetricsSnapshot) :
    List FalsifierHit :=
  match chKey snap.current snap.baseline "citizen_burden_index" with
  | some bc =>
    if bc ≥ cfg.thresholds.burden_worsen then
      [{ code := "citizen_burden_up_after_digital"
         title := "Citizen burden increased after digitization (UX regression)"
         severity := "HIGH"
         evidence := [("citizen_burden_index_change", .float bc)]
         recommendation := "Rollback UX/process; reduce steps/docs/trips; validate with citizen journey tests." }]
    else []
  | Option.none => []

/-- Actions appended by rule 5. -/
def actions_citizen_burden_up (cfg : FalsifierConfig) (snap : MetricsSnapshot) :
    List String :=
  match chKey snap.current snap.baseline "citizen_burden_index" with
  | some bc =>
    if bc ≥ cfg.thresholds.burden_worsen then
      ["ทำ citizen journey test ใหม่ และลด steps/docs/trips ให้ชัด",
       "ตั้ง policy: digitization must reduce burden (ไม่งั้นถือว่าล้มเหลว)"]
    else []
  | Option.none => []

/-- Hits appended by the absolute `error_rate_extreme` check (`>= 0.20`,
independent of the baseline). -/
def hits_error_rate_extreme (snap : MetricsSnapshot) : List FalsifierHit :=
  match numF (dictGet snap.current "error_rate") with
  | some e =>
    if e ≥ mkRat 1 5 then
      [{ code := "error_rate_extreme"
         title := "Error rate extremely high (unsafe to scale)"
         severity := "HIGH"
         evidence := [("error_rate", .float e)]
         recommendation := "Do not scale. Add validation, training, and staged gates immediately." }]
    else []
  | Option.none => []

/-- Actions appended by the `error_rate_extreme` check. -/
def actions_error_rate_extreme (snap : MetricsSnapshot) : List String :=
  match numF (dictGet snap.current "error_rate") with
  | some e =>
    if e ≥ mkRat 1 5 then
      ["ห้าม scale; เพิ่ม validation/training และทำ staged rollout"]
    else []
  | Option.none => []

/-- De-duplication preserving first occurrence, as done by the
`for a in actions: if a not in dedup_actions: ...` loop. -/
def dedupKeepFirst (xs : List String) : List String :=
  xs.foldl (fun acc a => if a ∈ acc then acc else acc ++ [a]) []

/-- The thresholds dict as recorded in the result metadata. -/
def Thresholds.toDict (t : Thresholds) : PyVal :=
  .dict [("latency_improve", .float t.latency_improve),
         ("error_worsen", .float t.error_worsen),
         ("throughput_improve", .float t.throughput_improve),
         ("disparity_worsen", .float t.disparity_worsen),
         ("transparency_min", .float t.transparency_min),
         ("burden_worsen", .float t.burden_worsen),
         ("shadow_paperwork_worsen", .float t.shadow_paperwork_worsen)]

/-- `FalsifierEngine.evaluate`.  The hit and action lists accumulate in the
source's order (baseline check, rules 1-5, extreme check); the call-time
timestamp is the explicit `now` argument. -/
def evaluateF (cfg : FalsifierConfig) (now : String) (snap : MetricsSnapshot) :
    FalsifierResult :=
  let hits := hits_baseline_missing cfg snap
    ++ hits_latency_down_errors_up cfg snap
    ++ hits_throughput_up_disparity_up cfg snap
    ++ hits_transparency_low cfg snap
    ++ hits_shadow_paperwork_grows cfg snap
    ++ hits_citizen_burden_up cfg snap
    ++ hits_error_rate_extreme snap
  let actions := actions_baseline_missing cfg snap
    ++ actions_latency_down_errors_up cfg snap
    ++ actions_throughput_up_disparity_up cfg snap
    ++ actions_transparency_low cfg snap
    ++ actions_shadow_paperwork_grows cfg snap
    ++ actions_citizen_burden_up cfg snap
    ++ actions_error_rate_extreme snap
  let high_hits := hits.filter (fun h => h.severity == "HIGH")
  let verdict := if high_hits.length > 0 then "FALSIFIED" else "OK"
  let summary :=
    if high_hits.length > 0 then
      "FALSIFIED — " ++ toString high_hits.length ++
        " high-severity falsifiers triggered. Rollout should be paused/rolled back."
    else "OK — No high-severity falsifiers triggered. Continue staged monitoring."
  { timestamp_utc := now
    verdict := verdict
    hits := hits
    summary := summary
    recommended_actions := (dedupKeepFirst actions).take 10
    metadata := dictMerge
      [("window", .str snap.window),
       ("require_baseline", .bool cfg.require_baseline),
       ("thresholds", cfg.thresholds.toDict)]
      snap.metadata }

/-! ### Audit gate (`audit_gate.py`)

Attribute access on a non-dict (`x.get(...)` raising `AttributeError`) is the
one way the gate code can raise; it is modelled by `Except Unit`. -/

/-- `GateResult` from `audit_gate.py` (the advisory `score` is an exact
rational; `to_dict`'s 3-digit rounding is not needed by any claim). -/
structure GateResult where
  gate : String
  verdict : String
  notes : List String
  fixes : List String
  score : ℚ
deriving DecidableEq

/-- `AuditReport` from `audit_gate.py`. -/
structure AuditReport where
  codex_id : String
  timestamp_utc : String
  overall_verdict : String
  gate_results : List GateResult
  summary : String
  minimum_fixes : List String
  metadata : List (String × PyVal)

/-- `_is_nonempty_str`. -/
def is_nonempty_str : PyVal → Bool
  | .str s => pyStrip s != ""
  | _ => false

/-- `_as_list`: `None` becomes `[]`, lists stay, anything else is wrapped. -/
def as_list : PyVal → List PyVal
  | .none => []
  | .list xs => xs
  | v => [v]

/-- `_count_missing_required`: a value is missing when it is `None`, an
empty/whitespace-only string, an empty list, or an empty dict. -/
def count_missing_required (required : List (String × PyVal)) : List String :=
  required.filterMap fun p =>
    match p.2 with
    | .none => some p.1
    | .str s => if pyStrip s = "" then some p.1 else Option.none
    | .list xs => if xs.isEmpty then some p.1 else Option.none
    | .dict kvs => if kvs.isEmpty then some p.1 else Option.none
    | _ => Option.none

/-- `x.get(k)` where `x` may be any value: raises (`AttributeError`) unless
`x` is a dict. -/
def pyGet : PyVal → String → Except Unit PyVal
  | .dict kvs, k => .ok (dictGet kvs k)
  | _, _ => .error ()

/-- Python `a or b` over possibly-raising operands, with short-circuiting. -/
def pyOrE (a b : Except Unit PyVal) : Except Unit PyVal := do
  let v ← a
  if truthy v then pure v else b

/-- `artifacts.get(code) or \x7b\x7d`: the document body used by a gate. -/
def resolveDoc (artifacts : List (String × PyVal)) (code : String) : PyVal :=
  pyOr (dictGet artifacts code) (.dict [])

/-- `_has_any_textual_evidence`. -/
def has_any_textual_evidence (es : PyVal) : Except Unit Bool := do
  let facts := as_list (← pyOrE (pyGet es "Facts") (pyGet es "facts"))
  if (facts.filter (fun f => is_nonempty_str f || isDict f)).length > 0 then
    pure true
  else
    let sources := as_list (← pyOrE (pyGet es "Sources") (pyGet es "sources"))
    pure ((sources.filter (fun s => is_nonempty_str s || isDict s)).length > 0)

/-- `AuditGate._score_from`: `max(0, 1 - min(1, missing*0.18 + penalties))`. -/
def score_from (missing : Nat) (penalties : ℚ) : ℚ :=
  max 0 (1 - min 1 ((missing : ℚ) * (9/50) + penalties))

/-- `AuditGate._truth_gate`. -/
def truth_gate (artifacts : List (String × PyVal)) : Except Unit GateResult := do
  let es := resolveDoc artifacts "ES"
  let fpf := resolveDoc artifacts "FPF"
  let ds := resolveDoc artifacts "DS"
  let facts := as_list (← pyOrE (pyGet es "Facts") (pyGet es "facts"))
  let assumptions := as_list (← pyOrE (pyGet es "Assumptions") (pyGet es "assumptions"))
  let _unknowns := as_list (← pyOrE (pyGet es "Unknowns") (pyGet es "unknowns"))
  let _data_risks := as_list
    (← pyOrE (pyOrE (pyGet es "Data risks") (pyGet es "DataRisks")) (pyGet es "data_risks"))
  let falsifiers := as_list (← pyOrE (pyGet fpf "Falsifiers") (pyGet fpf "falsifiers"))
  let minimal_tests := as_list
    (← pyOrE (pyOrE (pyGet fpf "Minimal tests") (pyGet fpf "MinimalTests"))
      (pyGet fpf "minimal_tests"))
  let missing := count_missing_required
    [("ES.Facts", .list facts), ("ES.Assumptions", .list assumptions),
     ("FPF.Falsifiers", .list falsifiers)]
  let evidence ← has_any_textual_evidence es
  let dsOptions ← pyOrE (pyOrE (pyGet ds "Option A") (pyGet ds "OptionA")) (pyGet ds "options")
  let notes :=
    (if !missing.isEmpty then
      ["Missing required fields: " ++ String.intercalate ", " missing] else [])
    ++ (if !evidence then
      ["Evidence looks weak: no sources or fact statements detected."] else [])
    ++ (if truthy dsOptions && facts.isEmpty then
      ["Decisions exist but no facts listed — risk of narrative-driven decision."] else [])
    ++ (if !falsifiers.isEmpty && minimal_tests.isEmpty then
      ["Falsifiers exist but minimal tests not specified."] else [])
  let fixes :=
    (if !missing.isEmpty then
      ["เติม ES: แยก Facts/Assumptions ให้ชัด และใส่ FPF.Falsifiers อย่างน้อย 3 ข้อ"] else [])
    ++ (if !evidence then
      ["เพิ่มหลักฐาน: ใส่ Facts ที่ตรวจสอบได้ + Sources (ลิงก์/เอกสาร/ข้อมูลตัวอย่าง)"] else [])
    ++ (if truthy dsOptions && facts.isEmpty then
      ["ก่อนตัดสินใจ: ใส่ Facts อย่างน้อย 5 ข้อ + ระบุ Unknowns ที่สำคัญ"] else [])
    ++ (if !falsifiers.isEmpty && minimal_tests.isEmpty then
      ["เพิ่ม Minimal tests อย่างน้อย 3 ข้อเพื่อผูก Falsifiers กับการวัดผลจริง"] else [])
  let score := score_from missing.length (if !evidence then 1/5 else 0)
  let verdict := if missing.isEmpty && evidence then "PASS" else "FAIL"
  pure { gate := "Truth Gate", verdict := verdict, notes := notes, fixes := fixes, score := score }

/-- `AuditGate._logic_gate`. -/
def logic_gate (artifacts : List (String × PyVal)) : Except Unit GateResult := do
  let wm := resolveDoc artifacts "WM"
  let ds := resolveDoc artifacts "DS"
  let fpf := resolveDoc artifacts "FPF"
  let causal ← pyOrE (pyOrE (pyGet wm "Causal structure") (pyGet wm "causal_structure"))
    (pyGet wm "CausalStructure")
  let loops := as_list (← pyOrE (pyGet wm "Loops") (pyGet wm "loops"))
  let delays := as_list (← pyOrE (pyGet wm "Delays") (pyGet wm "delays"))
  let bottlenecks := as_list (← pyOrE (pyGet wm "Bottlenecks") (pyGet wm "bottlenecks"))
  let optA ← pyOrE (pyGet ds "Option A") (pyGet ds "OptionA")
  let optB ← pyOrE (pyGet ds "Option B") (pyGet ds "OptionB")
  let optC ← pyOrE (pyGet ds "Option C") (pyGet ds "OptionC")
  let options_list ← pyGet ds "options"
  let base_count := (if truthy optA then 1 else 0) + (if truthy optB then 1 else 0)
    + (if truthy optC then 1 else 0)
  let options_count :=
    match options_list with
    | .list xs => max base_count xs.length
    | _ => base_count
  let levers := as_list (← pyOrE (pyGet fpf "Levers") (pyGet fpf "levers"))
  let variables_ := as_list (← pyOrE (pyGet fpf "Variables") (pyGet fpf "variables"))
  let missing := count_missing_required
    [("WM.Causal structure", causal), ("FPF.Variables", .list variables_),
     ("FPF.Levers", .list levers)]
  let notes :=
    (if !missing.isEmpty then
      ["Missing required fields: " ++ String.intercalate ", " missing] else [])
    ++ (if options_count < 2 then
      ["Decision set has fewer than 2 options — weak counterfactual reasoning."] else [])
    ++ (if loops.isEmpty && delays.isEmpty && bottlenecks.isEmpty then
      ["World model lacks loops/delays/bottlenecks — risk of linear reasoning."] else [])
  let fixes :=
    (if !missing.isEmpty then
      ["เติม WM.Causal structure + FPF.Variables/Levers เพื่อให้เหตุผลครบวงจร"] else [])
    ++ (if options_count < 2 then
      ["สร้างอย่างน้อย 2 ทางเลือก (Safe/Balanced/Aggressive) หรือระบุเหตุผลว่าทำไมมีทางเดียว"] else [])
    ++ (if loops.isEmpty && delays.isEmpty && bottlenecks.isEmpty then
      ["เพิ่ม Loops/Delays/Bottlenecks อย่างน้อยอย่างละ 1 (หรืออธิบายว่าทำไมไม่มี)"] else [])
  let score := score_from missing.length (if options_count < 2 then 3/20 else 0)
  let verdict := if missing.isEmpty && options_count ≥ 2 then "PASS" else "FAIL"
  pure { gate := "Logic Gate", verdict := verdict, notes := notes, fixes := fixes, score := score }

/-- `AuditGate._risk_gate`. -/
def risk_gate (artifacts : List (String × PyVal)) : Except Unit GateResult := do
  let ds := resolveDoc artifacts "DS"
  let ap := resolveDoc artifacts "AP"
  let downside ← pyOrE (pyOrE (pyGet ds "Global downside bound") (pyGet ds "GlobalDownsideBound"))
    (pyGet ds "DownsideBound")
  let rollback ← pyOrE (pyOrE (pyOrE (pyGet ds "Rollback plan") (pyGet ds "Rollback"))
    (pyGet ap "Rollback")) (pyGet ap "rollback")
  let kill_switch ← pyOrE (pyOrE (pyOrE (pyGet ds "Kill-switch") (pyGet ds "KillSwitch"))
    (pyGet ap "Kill-switch")) (pyGet ap "KillSwitch")
  let stages := as_list (← pyOrE (pyOrE (pyOrE (pyGet ap "Stages") (pyGet ap "stages"))
    (pyGet ap "Steps")) (pyGet ap "steps"))
  let thresholds ← pyOrE (pyOrE (pyOrE (pyGet ap "Thresholds") (pyGet ap "thresholds"))
    (pyGet ap "Metrics & thresholds")) (pyGet ap "metrics_thresholds")
  let instrumentation ← pyOrE (pyGet ap "Instrumentation") (pyGet ap "instrumentation")
  let missing := count_missing_required
    [("DS.Global downside bound", downside), ("AP.Rollback", rollback),
     ("AP.Kill-switch", kill_switch)]
  let notes :=
    (if !missing.isEmpty then
      ["Missing required fields: " ++ String.intercalate ", " missing] else [])
    ++ (if stages.isEmpty then
      ["Action plan has no stages — public rollouts should be staged by default."] else [])
    ++ (if !truthy thresholds || !truthy instrumentation then
      ["Missing instrumentation/thresholds — cannot detect failure early."] else [])
  let fixes :=
    (if !missing.isEmpty then
      ["กำหนด Downside bound + Rollback + Kill-switch ให้ชัด (ห้าม deploy ถ้าไม่มี)"] else [])
    ++ (if stages.isEmpty then
      ["เพิ่ม Stages (Pilot → Limited rollout → Scale) พร้อมเกณฑ์ผ่านแต่ละด่าน"] else [])
    ++ (if !truthy thresholds || !truthy instrumentation then
      ["เพิ่ม Instrumentation + Metrics/Thresholds เพื่อให้ kill-switch ทำงานได้จริง"] else [])
  let score := score_from missing.length (if stages.isEmpty then 3/20 else 0)
  let verdict := if missing.isEmpty && stages.length > 0 then "PASS" else "FAIL"
  pure { gate := "Risk Gate", verdict := verdict, notes := notes, fixes := fixes, score := score }

/-- `AuditGate._bias_gate`. -/
def bias_gate (artifacts : List (String × PyVal)) : Except Unit GateResult := do
  let sm := resolveDoc artifacts "SM"
  let es := resolveDoc artifacts "ES"
  let ds := resolveDoc artifacts "DS"
  let actors := as_list (← pyOrE (pyOrE (pyGet sm "Actors & incentives") (pyGet sm "Actors"))
    (pyGet sm "actors"))
  let incentives := as_list (← pyOrE (pyGet sm "Incentives") (pyGet sm "incentives"))
  let corruption := as_list
    (← pyOrE (pyGet sm "Corruption surfaces") (pyGet sm "corruption_surfaces"))
  let hidden_costs := as_list
    (← pyOrE (pyGet sm "Hidden costs/externalities") (pyGet sm "hidden_costs"))
  let missing := count_missing_required
    [("SM.Actors/Incentives", .list (if !actors.isEmpty then actors else incentives)),
     ("SM.Corruption surfaces", .list corruption),
     ("SM.Hidden costs/externalities", .list hidden_costs)]
  let facts := as_list (← pyOrE (pyGet es "Facts") (pyGet es "facts"))
  let dsOptions ← pyOrE (pyOrE (pyGet ds "Option A") (pyGet ds "OptionA")) (pyGet ds "options")
  let notes :=
    (if !missing.isEmpty then
      ["Missing required fields: " ++ String.intercalate ", " missing] else [])
    ++ (if facts.length < 3 && truthy dsOptions then
      ["Low fact count with active decisions — potential confirmation bias."] else [])
  let fixes :=
    (if !missing.isEmpty then
      ["เติม System Map: Actors/Incentives + Hidden costs + Corruption surfaces เพื่อกัน bias เชิงอำนาจ"] else [])
    ++ (if facts.length < 3 && truthy dsOptions then
      ["เพิ่ม Facts/Unknowns และใส่ counterarguments อย่างน้อย 2 ข้อใน DS/WM"] else [])
  let score := score_from missing.length (if facts.length < 3 then 1/10 else 0)
  let verdict := if missing.isEmpty then "PASS" else "FAIL"
  pure { gate := "Bias Gate", verdict := verdict, notes := notes, fixes := fixes, score := score }

/-- `AuditGate._clarity_gate`. -/
def clarity_gate (artifacts : List (String × PyVal)) : Except Unit GateResult := do
  let ic := resolveDoc artifacts "IC"
  let ap := resolveDoc artifacts "AP"
  let citizen_summary ← pyOrE (pyOrE (pyOrE (pyOrE (.ok (dictGet artifacts "CitizenSummary"))
    (pyGet ic "Citizen summary")) (pyGet ic "citizen_summary"))
    (pyGet ap "Citizen summary")) (pyGet ap "citizen_summary")
  let goal ← pyOrE (pyGet ic "Goal") (pyGet ic "goal")
  let deliverable ← pyOrE (pyGet ic "Deliverable") (pyGet ic "deliverable")
  let success_metrics ← pyOrE (pyGet ic "Success metrics") (pyGet ic "success_metrics")
  let checklist ← pyOrE (pyOrE (pyGet ap "Execution checklist") (pyGet ap "checklist"))
    (pyGet ap "Checklist")
  let missing := count_missing_required
    [("IC.Goal", goal), ("IC.Deliverable", deliverable), ("IC.Success metrics", success_metrics)]
  let notes :=
    (if !missing.isEmpty then
      ["Missing required fields: " ++ String.intercalate ", " missing] else [])
    ++ (if !is_nonempty_str citizen_summary then
      ["Citizen-facing summary not found."] else [])
    ++ (if !truthy checklist then
      ["Execution checklist missing — hard to operationalize."] else [])
  let fixes :=
    (if !missing.isEmpty then
      ["เติม IC: Goal/Deliverable/Success metrics เพื่อความชัดเจนระดับ 1 หน้า"] else [])
    ++ (if !is_nonempty_str citizen_summary then
      ["เพิ่ม Citizen Summary (ย่อ 8–12 บรรทัด) อธิบายผลลัพธ์/ขั้นตอน/สิทธิอุทธรณ์"] else [])
    ++ (if !truthy checklist then
      ["เพิ่ม Execution checklist สำหรับเจ้าหน้าที่ (ขั้นตอนสั้น ๆ ใช้งานได้จริง)"] else [])
  let score := score_from missing.length (if !truthy citizen_summary then 1/10 else 0)
  let verdict := if missing.isEmpty && is_nonempty_str citizen_summary then "PASS" else "FAIL"
  pure { gate := "Clarity Gate", verdict := verdict, notes := notes, fixes := fixes, score := score }

/-- The minimum-fixes accumulation loop of `AuditGate.evaluate`: all fix
strings of FAILed gates, in order, each appended only if not already present. -/
def collectFixes (grs : List GateResult) : List String :=
  grs.foldl
    (fun acc gr =>
      if gr.verdict == "FAIL" then
        gr.fixes.foldl (fun acc2 f => if f ∈ acc2 then acc2 else acc2 ++ [f]) acc
      else acc)
    []

/-- `AuditGate._summary`. -/
def summaryOf (overall : String) (grs : List GateResult) : String :=
  if overall = "PASS" then
    "PASS — All audit gates satisfied. Deployment permitted (staged execution still recommended)."
  else
    "FAIL — Deployment blocked. Failed gates: " ++
      String.intercalate ", " ((grs.filter (fun gr => gr.verdict == "FAIL")).map (fun gr => gr.gate))
      ++ "."

/-- `AuditGate.evaluate` (call-time timestamp passed as `now`). -/
def evaluateGate (strict : Bool) (now : String) (artifacts : List (String × PyVal))
    (metadata : List (String × PyVal)) : Except Unit AuditReport := do
  let truth ← truth_gate artifacts
  let logic ← logic_gate artifacts
  let risk ← risk_gate artifacts
  let bias ← bias_gate artifacts
  let clarity ← clarity_gate artifacts
  let gate_results := [truth, logic, risk, bias, clarity]
  let overall := if gate_results.all (fun gr => gr.verdict == "PASS") then "PASS" else "FAIL"
  let fixes := collectFixes gate_results
  pure { codex_id := "CIVIC-OS-TH v1.0"
         timestamp_utc := now
         overall_verdict := overall
         gate_results := gate_results
         summary := summaryOf overall gate_results
         minimum_fixes := fixes.take 8
         metadata := dictMerge [("strict", .bool strict)] metadata }

/-! ### Signed append-only log (`signed_memory.py`)

JSON-serializable payload values are modelled by `JVal`; JSON numbers with a
fractional part or exponent (Python floats, whose `repr`-based serialization is
outside the model) are excluded.  File contents are modelled as the list of
written lines; a missing log file is `Option.none`. -/

/-- A JSON value as produced by `json.loads` / consumed by `json.dumps`,
restricted to null, booleans, integers, strings, arrays and objects. -/
inductive JVal where
  | null : JVal
  | bool (b : Bool) : JVal
  | int (n : Int) : JVal
  | str (s : String) : JVal
  | arr (xs : List JVal) : JVal
  | obj (kvs : List (String × JVal)) : JVal

mutual

/-- Python `==` on parsed JSON values (object comparison is
insertion-order-sensitive here; objects built by this model have sorted or
canonically collapsed keys, and cross-type comparisons are `False` as in
Python for the value shapes reachable in the log). -/
def JVal.beq : JVal → JVal → Bool
  | .null, .null => true
  | .bool a, .bool b => a == b
  | .int a, .int b => a == b
  | .str a, .str b => a == b
  | .arr xs, .arr ys => JVal.beqList xs ys
  | .obj xs, .obj ys => JVal.beqObj xs ys
  | _, _ => false

/-- Elementwise `JVal.beq` on lists. -/
def JVal.beqList : List JVal → List JVal → Bool
  | [], [] => true
  | x :: xs, y :: ys => JVal.beq x y && JVal.beqList xs ys
  | _, _ => false

/-- Pairwise `JVal.beq` on object entries. -/
def JVal.beqObj : List (String × JVal) → List (String × JVal) → Bool
  | [], [] => true
  | (k1, v1) :: xs, (k2, v2) :: ys => k1 == k2 && JVal.beq v1 v2 && JVal.beqObj xs ys
  | _, _ => false

end

/-- Hex digit character (lowercase), for indices `0..15`. -/
def hexDigitChar (n : Nat) : Char := Char.ofNat (if n < 10 then 48 + n else 87 + n)

/-- Escape one character as `json.dumps` does with `ensure_ascii=False`:
quote and backslash escaped, control characters as short escapes or
`\u00XX`, everything else passed through. -/
def jsonEscapeChar (c : Char) : String :=
  if c = '"' then "\\\""
  else if c = '\\' then "\\\\"
  else if c = '\n' then "\\n"
  else if c = '\t' then "\\t"
  else if c = '\r' then "\\r"
  else if c = '\x08' then "\\b"
  else if c = '\x0c' then "\\f"
  else if c.toNat < 32 then
    "\\u00" ++ String.mk [hexDigitChar (c.toNat / 16), hexDigitChar (c.toNat % 16)]
  else String.singleton c

/-- Serialize a string as a JSON string literal. -/
def jsonQuote (s : String) : String :=
  "\"" ++ String.join (s.data.map jsonEscapeChar) ++ "\""

/-- Lexicographic code-point comparison of character lists (Python `str <`). -/
def charListLt : List Char → List Char → Bool
  | [], [] => false
  | [], _ :: _ => true
  | _ :: _, [] => false
  | a :: as, b :: bs =>
    if a.toNat < b.toNat then true
    else if b.toNat < a.toNat then false
    else charListLt as bs

/-- Python `a < b` on strings (code-point lexicographic). -/
def strLtB (a b : String) : Bool := charListLt a.data b.data

/-- Insert a rendered object entry into a key-sorted list (`sort_keys=True`;
Python sorts keys by code-point order). -/
def insertPair (p : String × String) : List (String × String) → List (String × String)
  | [] => [p]
  | q :: qs => if strLtB q.1 p.1 then q :: insertPair p qs else p :: q :: qs

/-- Insertion sort of rendered object entries by key. -/
def sortPairs (ps : List (String × String)) : List (String × String) :=
  ps.foldr insertPair []

mutual

/-- `_canonical_json`: `json.dumps(obj, ensure_ascii=False, sort_keys=True,
separators=(",", ":"))`. -/
def canonicalJson : JVal → String
  | .null => "null"
  | .bool b => if b then "true" else "false"
  | .int n => toString n
  | .str s => jsonQuote s
  | .arr xs => "[" ++ String.intercalate "," (canonicalList xs) ++ "]"
  | .obj kvs =>
    "\x7b" ++ String.intercalate "," ((sortPairs (canonicalPairs kvs)).map Prod.snd) ++ "\x7d"

/-- Canonical serializations of array elements. -/
def canonicalList : List JVal → List String
  | [] => []
  | x :: xs => canonicalJson x :: canonicalList xs

/-- Rendered `"key":value` entries of an object, tagged with their keys. -/
def canonicalPairs : List (String × JVal) → List (String × String)
  | [] => []
  | (k, v) :: ps => (k, jsonQuote k ++ ":" ++ canonicalJson v) :: canonicalPairs ps

end

/-- UTF-8 encoding of one character. -/
def utf8Char (c : Char) : List Nat :=
  let n := c.toNat
  if n < 128 then [n]
  else if n < 2048 then [192 + n / 64, 128 + n % 64]
  else if n < 65536 then [224 + n / 4096, 128 + (n / 64) % 64, 128 + n % 64]
  else [240 + n / 262144, 128 + (n / 4096) % 64, 128 + (n / 64) % 64, 128 + n % 64]

/-- UTF-8 encoding of a string, as a list of byte values. -/
def utf8Bytes (s : String) : List Nat :=
  s.data.foldr (fun c acc => utf8Char c ++ acc) []

/-! SHA-256 (FIPS 180-4) over byte lists, with 32-bit words as naturals
reduced mod `2^32`; used by `hashlib.sha256(...).hexdigest()` and
`hmac.new(..., hashlib.sha256)`. -/

/-- `2^32`. -/
def M32 : Nat := 4294967296

/-- Addition mod `2^32`. -/
def add32 (a b : Nat) : Nat := (a + b) % M32

/-- Right rotation of a 32-bit word by `n`. -/
def rotr32 (n x : Nat) : Nat := ((x >>> n) ||| (x <<< (32 - n))) % M32

/-- SHA-256 `Ch`. -/
def shaCh (x y z : Nat) : Nat := (x &&& y) ^^^ ((x ^^^ 4294967295) &&& z)

/-- SHA-256 `Maj`. -/
def shaMaj (x y z : Nat) : Nat := (x &&& y) ^^^ (x &&& z) ^^^ (y &&& z)

/-- SHA-256 `Σ₀`. -/
def bsig0 (x : Nat) : Nat := rotr32 2 x ^^^ rotr32 13 x ^^^ rotr32 22 x

/-- SHA-256 `Σ₁`. -/
def bsig1 (x : Nat) : Nat := rotr32 6 x ^^^ rotr32 11 x ^^^ rotr32 25 x

/-- SHA-256 `σ₀`. -/
def ssig0 (x : Nat) : Nat := rotr32 7 x ^^^ rotr32 18 x ^^^ (x >>> 3)

/-- SHA-256 `σ₁`. -/
def ssig1 (x : Nat) : Nat := rotr32 17 x ^^^ rotr32 19 x ^^^ (x >>> 10)

/-- The 64 SHA-256 round constants. -/
def shaK : List Nat :=
  [1116352408, 1899447441, 3049323471, 3921009573, 961987163, 1508970993,
   2453635748, 2870763221, 3624381080, 310598401, 607225278, 1426881987,
   1925078388, 2162078206, 2614888103, 3248222580, 3835390401, 4022224774,
   264347078, 604807628, 770255983, 1249150122, 1555081692, 1996064986,
   2554220882, 2821834349, 2952996808, 3210313671, 3336571891, 3584528711,
   113926993, 338241895, 666307205, 773529912, 1294757372, 1396182291,
   1695183700, 1986661051, 2177026350, 2456956037, 2730485921, 2820302411,
   3259730800, 3345764771, 3516065817, 3600352804, 4094571909, 275423344,
   430227734, 506948616, 659060556, 883997877, 958139571, 1322822218,
   1537002063, 1747873779, 1955562222, 2024104815, 2227730452, 2361852424,
   2428436474, 2756734187, 3204031479, 3329325298]

/-- The eight SHA-256 initial hash words. -/
def shaH0 : List Nat :=
  [1779033703, 3144134277, 1013904242, 2773480762,
   1359893119, 2600822924, 528734635, 1541459225]

/-- Big-endian 8-byte encoding of a natural. -/
def be64 (n : Nat) : List Nat :=
  [(n >>> 56) % 256, (n >>> 48) % 256, (n >>> 40) % 256, (n >>> 32) % 256,
   (n >>> 24) % 256, (n >>> 16) % 256, (n >>> 8) % 256, n % 256]

/-- SHA-256 message padding to a multiple of 64 bytes. -/
def padBytes (msg : List Nat) : List Nat :=
  msg ++ [128] ++ List.replicate ((119 - msg.length % 64) % 64) 0 ++ be64 (msg.length * 8)

/-- The 16 big-endian message words of one 64-byte block. -/
def wordsOfBlock (bs : List Nat) : List Nat :=
  (List.range 16).map fun t =>
    bs.getD (4 * t) 0 * 16777216 + bs.getD (4 * t + 1) 0 * 65536 +
      bs.getD (4 * t + 2) 0 * 256 + bs.getD (4 * t + 3) 0

/-- Extend 16 message words to the 64-word schedule. -/
def extendW (w0 : List Nat) : List Nat :=
  (List.range 48).foldl
    (fun w _ =>
      let n := w.length
      w ++ [add32 (add32 (ssig1 (w.getD (n - 2) 0)) (w.getD (n - 7) 0))
        (add32 (ssig0 (w.getD (n - 15) 0)) (w.getD (n - 16) 0))])
    w0

/-- Compress one 64-byte block into the running 8-word state. -/
def shaCompress (st : List Nat) (block : List Nat) : List Nat :=
  let w := extendW (wordsOfBlock block)
  let final := (List.range 64).foldl
    (fun s t =>
      let a := s.getD 0 0
      let b := s.getD 1 0
      let c := s.getD 2 0
      let d := s.getD 3 0
      let e := s.getD 4 0
      let f := s.getD 5 0
      let g := s.getD 6 0
      let h := s.getD 7 0
      let t1 := add32 h (add32 (bsig1 e) (add32 (shaCh e f g) (add32 (shaK.getD t 0) (w.getD t 0))))
      let t2 := add32 (bsig0 a) (shaMaj a b c)
      [add32 t1 t2, a, b, c, add32 d t1, e, f, g])
    st
  List.zipWith add32 st final

/-- SHA-256 of a byte list, as the final 8-word state. -/
def sha256Words (msg : List Nat) : List Nat :=
  let padded := padBytes msg
  (List.range (padded.length / 64)).foldl
    (fun st i => shaCompress st ((padded.drop (64 * i)).take 64)) shaH0

/-- Big-endian bytes of one 32-bit word. -/
def wordBytes (w : Nat) : List Nat := [(w >>> 24) % 256, (w >>> 16) % 256, (w >>> 8) % 256, w % 256]

/-- SHA-256 digest of a byte list, as 32 bytes. -/
def sha256Bytes (msg : List Nat) : List Nat :=
  (sha256Words msg).foldr (fun w acc => wordBytes w ++ acc) []

/-- Lowercase hex digest of a byte list (`.hexdigest()`). -/
def bytesHex (bs : List Nat) : String :=
  String.mk (bs.foldr (fun b acc => hexDigitChar (b / 16) :: hexDigitChar (b % 16) :: acc) [])

/-- `_sha256_hex`: SHA-256 hex digest of a string's UTF-8 bytes. -/
def sha256hexStr (s : String) : String := bytesHex (sha256Bytes (utf8Bytes s))

/-- HMAC-SHA-256 (FIPS 198-1) hex digest, with byte-list key and message. -/
def hmacSha256hexBytes (key msg : List Nat) : List Nat :=
  let k0 := if key.length > 64 then sha256Bytes key else key
  let kp := k0 ++ List.replicate (64 - k0.length) 0
  sha256Bytes (kp.map (fun b => b ^^^ 92) ++ sha256Bytes (kp.map (fun b => b ^^^ 54) ++ msg))

/-- `_hmac_sha256_hex`: HMAC-SHA-256 of a string message under a byte key. -/
def hmac_sha256_hex (secret : List Nat) (msg : String) : String :=
  bytesHex (hmacSha256hexBytes secret (utf8Bytes msg))

/-- First-match lookup in a JSON object (keys are unique: objects are built by
`to_dict` or collapsed by the parser). -/
def jGet (kvs : List (String × JVal)) (k : String) : Option JVal :=
  match kvs.find? (fun p => p.1 == k) with
  | some p => some p.2
  | Option.none => Option.none

/-- `obj.get(k, dflt)` on a parsed JSON object. -/
def jGetD (kvs : List (String × JVal)) (k : String) (dflt : JVal) : JVal :=
  (jGet kvs k).getD dflt

/-- `d[k] = v` on a JSON object: replace in place or append. -/
def jdictSet (kvs : List (String × JVal)) (k : String) (v : JVal) : List (String × JVal) :=
  if kvs.any (fun p => p.1 == k) then
    kvs.map (fun p => if p.1 == k then (k, v) else p)
  else kvs ++ [(k, v)]

/-- `SignedEntry` from `signed_memory.py` (payload restricted to `JVal`). -/
structure SignedEntry where
  run_id : String
  seq : Int
  event : String
  payload : List (String × JVal)
  timestamp_utc : String
  prev_hash : String
  hash : String
  signature : String

/-- `SignedEntry.to_dict`, in the source's key order. -/
def SignedEntry.to_dict (e : SignedEntry) : List (String × JVal) :=
  [("run_id", .str e.run_id), ("seq", .int e.seq), ("event", .str e.event),
   ("timestamp_utc", .str e.timestamp_utc), ("prev_hash", .str e.prev_hash),
   ("hash", .str e.hash), ("signature", .str e.signature), ("payload", .obj e.payload)]

/-- `SignedMemory._compute_hash`: the hash clears only the `signature` field
of the given entry dict (the `hash` field is hashed as-is). -/
def compute_hash (entry_dict : List (String × JVal)) : String :=
  sha256hexStr (canonicalJson (.obj (jdictSet entry_dict "signature" (.str ""))))

/-- `SignedMemory._compute_signature`. -/
def compute_signature (secret : Option (List Nat)) (h : String) : String :=
  match secret with
  | Option.none => ""
  | some k => hmac_sha256_hex k h

/-- The in-memory tail state of a `SignedMemory` (`_secret`, `_seq`,
`_prev_hash`). -/
structure SMState where
  secret : Option (List Nat)
  seq : Int
  prev_hash : String

/-- A fresh `SignedMemory` over a not-yet-existing log file. -/
def smInit (secret : Option (List Nat)) : SMState := { secret := secret, seq := 0, prev_hash := "" }

/-- `SignedMemory.append`: returns the written line, the mutated entry, and
the advanced state. -/
def append (st : SMState) (e0 : SignedEntry) : String × SignedEntry × SMState :=
  let e1 := { e0 with seq := st.seq, prev_hash := st.prev_hash }
  let h := compute_hash e1.to_dict
  let sig := compute_signature st.secret h
  let e2 := { e1 with hash := h, signature := sig }
  (canonicalJson (.obj e2.to_dict), e2,
    { st with seq := st.seq + 1, prev_hash := h })

/-- Sequential appends: the written lines, the stored entries, and the final
state. -/
def appendAll (st : SMState) : List SignedEntry → List String × List SignedEntry × SMState
  | [] => ([], [], st)
  | e :: es =>
    let r := append st e
    let rest := appendAll r.2.2 es
    (r.1 :: rest.1, r.2.1 :: rest.2.1, rest.2.2)

/-! JSON parsing (`json.loads`), modelled by a fuel-indexed recursive-descent
parser over the same `JVal` subset: `null`/`true`/`false`, integers (floats
are outside the model), strings with the standard escapes, arrays and
objects (duplicate keys collapse, last binding wins, as for Python dicts).
A parse failure models `json.JSONDecodeError`. -/

/-- JSON insignificant whitespace. -/
def jsonWs (c : Char) : Bool := c = ' ' || c = '\t' || c = '\n' || c = '\r'

/-- Drop leading JSON whitespace. -/
def skipWs : List Char → List Char
  | c :: cs => if jsonWs c then skipWs cs else c :: cs
  | [] => []

/-- Hex digit value of a character, if any. -/
def hexVal (c : Char) : Option Nat :=
  if c.isDigit then some (c.toNat - 48)
  else if 'a' ≤ c ∧ c ≤ 'f' then some (c.toNat - 87)
  else if 'A' ≤ c ∧ c ≤ 'F' then some (c.toNat - 55)
  else Option.none

/-- Parse exactly four hex digits. -/
def parseHex4 : List Char → Option (Nat × List Char)
  | c1 :: c2 :: c3 :: c4 :: rest => do
    let a ← hexVal c1
    let b ← hexVal c2
    let c ← hexVal c3
    let d ← hexVal c4
    some (((a * 16 + b) * 16 + c) * 16 + d, rest)
  | _ => Option.none

/-- Parse a JSON string body (after the opening quote) up to the closing
quote.  Raw control characters are rejected (strict mode); surrogate-pair
`\u` escapes are outside the model. -/
def parseStrBody : Nat → List Char → Except Unit (String × List Char)
  | 0, _ => .error ()
  | _, [] => .error ()
  | fuel + 1, c :: cs =>
    if c = '"' then .ok ("", cs)
    else if c = '\\' then
      match cs with
      | [] => .error ()
      | e :: cs2 =>
        let esc : Except Unit (Char × List Char) :=
          if e = '"' then .ok ('"', cs2)
          else if e = '\\' then .ok ('\\', cs2)
          else if e = '/' then .ok ('/', cs2)
          else if e = 'b' then .ok ('\x08', cs2)
          else if e = 'f' then .ok ('\x0c', cs2)
          else if e = 'n' then .ok ('\n', cs2)
          else if e = 'r' then .ok ('\r', cs2)
          else if e = 't' then .ok ('\t', cs2)
          else if e = 'u' then
            match parseHex4 cs2 with
            | some (n, rest) => .ok (Char.ofNat n, rest)
            | Option.none => .error ()
          else .error ()
        match esc with
        | .ok (ch, rest) => do
          let r ← parseStrBody fuel rest
          .ok (String.singleton ch ++ r.1, r.2)
        | .error _ => .error ()
    else if c.toNat < 32 then .error ()
    else do
      let r ← parseStrBody fuel cs
      .ok (String.singleton c ++ r.1, r.2)

/-- Parse a JSON number restricted to integers (an optional minus sign and
digits without a redundant leading zero; a following `.`/`e`/`E` would start
a float, which is outside the model). -/
def parseNumber (cs : List Char) : Except Unit (JVal × List Char) :=
  let sgn := match cs with
    | '-' :: r => (true, r)
    | r => (false, r)
  let dr := takeDigits sgn.2
  if dr.1.isEmpty then .error ()
  else if dr.1.length > 1 ∧ dr.1.headD 0 = 0 then .error ()
  else
    match dr.2 with
    | '.' :: _ => .error ()
    | 'e' :: _ => .error ()
    | 'E' :: _ => .error ()
    | rest =>
      .ok (.int (if sgn.1 then -(natOfDigits dr.1 : Int) else (natOfDigits dr.1 : Int)), rest)

mutual

/-- Parse one JSON value. -/
def parseVal : Nat → List Char → Except Unit (JVal × List Char)
  | 0, _ => .error ()
  | fuel + 1, cs =>
    match skipWs cs with
    | 'n' :: r1 =>
      (match r1 with
       | 'u' :: 'l' :: 'l' :: r => .ok (.null, r)
       | _ => .error ())
    | 't' :: r1 =>
      (match r1 with
       | 'r' :: 'u' :: 'e' :: r => .ok (.bool true, r)
       | _ => .error ())
    | 'f' :: r1 =>
      (match r1 with
       | 'a' :: 'l' :: 's' :: 'e' :: r => .ok (.bool false, r)
       | _ => .error ())
    | '"' :: r => do
      let s ← parseStrBody (fuel + 1) r
      .ok (.str s.1, s.2)
    | '[' :: r =>
      (match skipWs r with
       | ']' :: r2 => .ok (.arr [], r2)
       | r2 => do
         let xs ← parseArrItems fuel r2
         .ok (.arr xs.1, xs.2))
    | c :: r =>
      if c.toNat = 123 then
        (match skipWs r with
         | c2 :: r2 =>
           if c2.toNat = 125 then .ok (.obj [], r2)
           else do
             let ps ← parseObjItems fuel (c2 :: r2)
             .ok (.obj (ps.1.foldl (fun acc p => jdictSet acc p.1 p.2) []), ps.2)
         | [] => .error ())
      else parseNumber (c :: r)
    | [] => .error ()

/-- Parse the comma-separated items of a non-empty array, consuming the
closing bracket. -/
def parseArrItems : Nat → List Char → Except Unit (List JVal × List Char)
  | 0, _ => .error ()
  | fuel + 1, cs => do
    let v ← parseVal fuel cs
    match skipWs v.2 with
    | ',' :: r2 => do
      let vs ← parseArrItems fuel r2
      .ok (v.1 :: vs.1, vs.2)
    | ']' :: r2 => .ok ([v.1], r2)
    | _ => .error ()

/-- Parse the comma-separated members of a non-empty object, consuming the
closing brace. -/
def parseObjItems : Nat → List Char → Except Unit (List (String × JVal) × List Char)
  | 0, _ => .error ()
  | fuel + 1, cs =>
    match skipWs cs with
    | '"' :: r => do
      let k ← parseStrBody (fuel + 1) r
      match skipWs k.2 with
      | ':' :: r2 => do
        let v ← parseVal fuel r2
        match skipWs v.2 with
        | ',' :: r4 => do
          let ps ← parseObjItems fuel r4
          .ok ((k.1, v.1) :: ps.1, ps.2)
        | c :: r4 => if c.toNat = 125 then .ok ([(k.1, v.1)], r4) else .error ()
        | [] => .error ()
      | _ => .error ()
    | _ => .error ()

end

/-- `json.loads` on a line: parse one value, allowing surrounding whitespace
and nothing else. -/
def jsonParse (s : String) : Except Unit JVal :=
  match parseVal (s.length + 1) s.data with
  | .ok (v, rest) => if (skipWs rest).isEmpty then .ok v else .error ()
  | .error _ => .error ()

mutual

/-- Python `repr` of a parsed JSON value (best effort: string quoting uses
plain single quotes; only scalars are interpolated by the code under
verification). -/
def pyReprJ : JVal → String
  | .null => "None"
  | .bool b => if b then "True" else "False"
  | .int n => toString n
  | .str s => "\x27" ++ s ++ "\x27"
  | .arr xs => "[" ++ String.intercalate ", " (pyReprList xs) ++ "]"
  | .obj kvs => "\x7b" ++ String.intercalate ", " (pyReprPairs kvs) ++ "\x7d"

/-- `repr` of list elements. -/
def pyReprList : List JVal → List String
  | [] => []
  | x :: xs => pyReprJ x :: pyReprList xs

/-- `repr` of dict entries. -/
def pyReprPairs : List (String × JVal) → List String
  | [] => []
  | (k, v) :: ps => ("\x27" ++ k ++ "\x27: " ++ pyReprJ v) :: pyReprPairs ps

end

/-- Python `str()` of a parsed JSON value, as interpolated into f-strings. -/
def pyStrJ : JVal → String
  | .str s => s
  | v => pyReprJ v

/-- The loop state of `verify_chain`: `checked`, the running `prev_hash`
expectation (a parsed value, reassigned from `obj.get("hash", "")`), `bad`,
and the accumulated notes. -/
structure VState where
  checked : Int
  prev : JVal
  bad : Int
  notes : List String

/-- Process one non-blank line of `verify_chain`: parse it (a failure raises),
then check the chain link, the recomputed hash, and (if a secret is set) the
signature. -/
def verifyStep (secret : Option (List Nat)) (st : VState) (line : String) :
    Except Unit VState := do
  let checked := st.checked + 1
  let ov ← jsonParse line
  let kvs ← match ov with
    | .obj kvs => Except.ok kvs
    | _ => Except.error ()
  let chainBad := !JVal.beq (jGetD kvs "prev_hash" (.str "")) st.prev
  let recompute := jdictSet kvs "signature" (.str "")
  let expected_hash := sha256hexStr (canonicalJson (.obj recompute))
  let hashBad := !JVal.beq (jGetD kvs "hash" .null) (.str expected_hash)
  let sigBad :=
    match secret with
    | some k => !JVal.beq (jGetD kvs "signature" .null) (.str (hmac_sha256_hex k expected_hash))
    | Option.none => false
  pure
    { checked := checked
      prev := jGetD kvs "hash" (.str "")
      bad := st.bad + (if chainBad then 1 else 0) + (if hashBad then 1 else 0)
        + (if sigBad then 1 else 0)
      notes := st.notes
        ++ (if chainBad then ["Chain mismatch at seq=" ++ pyStrJ (jGetD kvs "seq" .null)] else [])
        ++ (if hashBad then ["Hash mismatch at seq=" ++ pyStrJ (jGetD kvs "seq" .null)] else [])
        ++ (if sigBad then ["Signature mismatch at seq=" ++ pyStrJ (jGetD kvs "seq" .null)] else []) }

/-- The line loop of `verify_chain`: blank lines are skipped, each other line
goes through `verifyStep`. -/
def verifyLoop (secret : Option (List Nat)) (st : VState) :
    List String → Except Unit VState
  | [] => .ok st
  | l :: ls =>
    if pyStrip l = "" then verifyLoop secret st ls
    else do
      let st2 ← verifyStep secret st l
      verifyLoop secret st2 ls

/-- `SignedMemory.verify_chain`: `Option.none` models a missing log file (the
short report dict), `some lines` an existing file.  An uncaught exception in
the loop is the `Except.error` case. -/
def verify_chain (secret : Option (List Nat)) (file : Option (List String)) :
    Except Unit (List (String × PyVal)) :=
  match file with
  | Option.none =>
    .ok [("ok", .bool true), ("checked", .int 0), ("notes", .list [.str "No log found."])]
  | some lines => do
    let st ← verifyLoop secret { checked := 0, prev := .str "", bad := 0, notes := [] } lines
    pure [("ok", .bool (st.bad == 0)), ("checked", .int st.checked), ("bad", .int st.bad),
          ("notes", .list ((st.notes.take 20).map PyVal.str)),
          ("signature_enabled", .bool secret.isSome)]

/-! ### Reduction lemmas

Small equations that let the monadic gate bodies reduce symbolically once the
document bodies are known to be dicts. -/

theorem ebind_ok {α β : Type} (x : α) (f : α → Except Unit β) :
    (Except.ok x >>= f) = f x := rfl

theorem ebind_err {α β : Type} (f : α → Except Unit β) :
    ((Except.error () : Except Unit α) >>= f) = Except.error () := rfl

theorem epure_eq {α : Type} (x : α) : (pure x : Except Unit α) = Except.ok x := rfl

theorem pyGet_dict (kvs : List (String × PyVal)) (k : String) :
    pyGet (.dict kvs) k = .ok (dictGet kvs k) := rfl

theorem pyOrE_ok_ok (x y : PyVal) : pyOrE (.ok x) (.ok y) = .ok (pyOr x y) := by
  have h : pyOrE (.ok x) (.ok y) = if truthy x = true then Except.ok x else Except.ok y := rfl
  rw [h]
  unfold pyOr
  split <;> rfl

/-- `_has_any_textual_evidence` on a dict, as a total boolean. -/
def evidenceB (esk : List (String × PyVal)) : Bool :=
  let facts := as_list (pyOr (dictGet esk "Facts") (dictGet esk "facts"))
  if (facts.filter (fun f => is_nonempty_str f || isDict f)).length > 0 then true
  else
    let sources := as_list (pyOr (dictGet esk "Sources") (dictGet esk "sources"))
    (sources.filter (fun s => is_nonempty_str s || isDict s)).length > 0

theorem evidence_dict (esk : List (String × PyVal)) :
    has_any_textual_evidence (.dict esk) = .ok (evidenceB esk) := by
  simp only [has_any_textual_evidence, pyGet_dict, pyOrE_ok_ok, ebind_ok, epure_eq, evidenceB]
  split <;> rfl

/-- The value of `_truth_gate` when its three documents resolve to dicts. -/
def truthResult (esk fpfk dsk : List (String × PyVal)) : GateResult :=
  let facts := as_list (pyOr (dictGet esk "Facts") (dictGet esk "facts"))
  let assumptions := as_list (pyOr (dictGet esk "Assumptions") (dictGet esk "assumptions"))
  let falsifiers := as_list (pyOr (dictGet fpfk "Falsifiers") (dictGet fpfk "falsifiers"))
  let minimal_tests := as_list
    (pyOr (pyOr (dictGet fpfk "Minimal tests") (dictGet fpfk "MinimalTests"))
      (dictGet fpfk "minimal_tests"))
  let missing := count_missing_required
    [("ES.Facts", .list facts), ("ES.Assumptions", .list assumptions),
     ("FPF.Falsifiers", .list falsifiers)]
  let evidence := evidenceB esk
  let dsOptions := pyOr (pyOr (dictGet dsk "Option A") (dictGet dsk "OptionA")) (dictGet dsk "options")
  let notes :=
    (if !missing.isEmpty then
      ["Missing required fields: " ++ String.intercalate ", " missing] else [])
    ++ (if !evidence then
      ["Evidence looks weak: no sources or fact statements detected."] else [])
    ++ (if truthy dsOptions && facts.isEmpty then
      ["Decisions exist but no facts listed — risk of narrative-driven decision."] else [])
    ++ (if !falsifiers.isEmpty && minimal_tests.isEmpty then
      ["Falsifiers exist but minimal tests not specified."] else [])
  let fixes :=
    (if !missing.isEmpty then
      ["เติม ES: แยก Facts/Assumptions ให้ชัด และใส่ FPF.Falsifiers อย่างน้อย 3 ข้อ"] else [])
    ++ (if !evidence then
      ["เพิ่มหลักฐาน: ใส่ Facts ที่ตรวจสอบได้ + Sources (ลิงก์/เอกสาร/ข้อมูลตัวอย่าง)"] else [])
    ++ (if truthy dsOptions && facts.isEmpty then
      ["ก่อนตัดสินใจ: ใส่ Facts อย่างน้อย 5 ข้อ + ระบุ Unknowns ที่สำคัญ"] else [])
    ++ (if !falsifiers.isEmpty && minimal_tests.isEmpty then
      ["เพิ่ม Minimal tests อย่างน้อย 3 ข้อเพื่อผูก Falsifiers กับการวัดผลจริง"] else [])
  { gate := "Truth Gate"
    verdict := if missing.isEmpty && evidence then "PASS" else "FAIL"
    notes := notes
    fixes := fixes
    score := score_from missing.length (if !evidence then 1/5 else 0) }

theorem truth_gate_eq (a : List (String × PyVal)) (esk fpfk dsk : List (String × PyVal))
    (hes : resolveDoc a "ES" = .dict esk) (hf : resolveDoc a "FPF" = .dict fpfk)
    (hd : resolveDoc a "DS" = .dict dsk) :
    truth_gate a = .ok (truthResult esk fpfk dsk) := by
  simp only [truth_gate, hes, hf, hd, pyGet_dict, pyOrE_ok_ok, ebind_ok, evidence_dict, epure_eq]
  rfl

/-- The value of `_logic_gate` when its three documents resolve to dicts. -/
def logicResult (wmk dsk fpfk : List (String × PyVal)) : GateResult :=
  let loops := as_list (pyOr (dictGet wmk "Loops") (dictGet wmk "loops"))
  let delays := as_list (pyOr (dictGet wmk "Delays") (dictGet wmk "delays"))
  let bottlenecks := as_list (pyOr (dictGet wmk "Bottlenecks") (dictGet wmk "bottlenecks"))
  let optA := pyOr (dictGet dsk "Option A") (dictGet dsk "OptionA")
  let optB := pyOr (dictGet dsk "Option B") (dictGet dsk "OptionB")
  let optC := pyOr (dictGet dsk "Option C") (dictGet dsk "OptionC")
  let options_list := dictGet dsk "options"
  let base_count := (if truthy optA then 1 else 0) + (if truthy optB then 1 else 0)
    + (if truthy optC then 1 else 0)
  let options_count :=
    match options_list with
    | .list xs => max base_count xs.length
    | _ => base_count
  let levers := as_list (pyOr (dictGet fpfk "Levers") (dictGet fpfk "levers"))
  let variables_ := as_list (pyOr (dictGet fpfk "Variables") (dictGet fpfk "variables"))
  let missing := count_missing_required
    [("WM.Causal structure",
       pyOr (pyOr (dictGet wmk "Causal structure") (dictGet wmk "causal_structure"))
         (dictGet wmk "CausalStructure")),
     ("FPF.Variables", .list variables_), ("FPF.Levers", .list levers)]
  let notes :=
    (if !missing.isEmpty then
      ["Missing required fields: " ++ String.intercalate ", " missing] else [])
    ++ (if options_count < 2 then
      ["Decision set has fewer than 2 options — weak counterfactual reasoning."] else [])
    ++ (if loops.isEmpty && delays.isEmpty && bottlenecks.isEmpty then
      ["World model lacks loops/delays/bottlenecks — risk of linear reasoning."] else [])
  let fixes :=
    (if !missing.isEmpty then
      ["เติม WM.Causal structure + FPF.Variables/Levers เพื่อให้เหตุผลครบวงจร"] else [])
    ++ (if options_count < 2 then
      ["สร้างอย่างน้อย 2 ทางเลือก (Safe/Balanced/Aggressive) หรือระบุเหตุผลว่าทำไมมีทางเดียว"] else [])
    ++ (if loops.isEmpty && delays.isEmpty && bottlenecks.isEmpty then
      ["เพิ่ม Loops/Delays/Bottlenecks อย่างน้อยอย่างละ 1 (หรืออธิบายว่าทำไมไม่มี)"] else [])
  { gate := "Logic Gate"
    verdict := if missing.isEmpty && options_count ≥ 2 then "PASS" else "FAIL"
    notes := notes
    fixes := fixes
    score := score_from missing.length (if options_count < 2 then 3/20 else 0) }

theorem logic_gate_eq (a : List (String × PyVal)) (wmk dsk fpfk : List (String × PyVal))
    (hwm : resolveDoc a "WM" = .dict wmk) (hd : resolveDoc a "DS" = .dict dsk)
    (hf : resolveDoc a "FPF" = .dict fpfk) :
    logic_gate a = .ok (logicResult wmk dsk fpfk) := by
  simp only [logic_gate, hwm, hd, hf, pyGet_dict, pyOrE_ok_ok, ebind_ok, epure_eq]
  rfl

/-- The value of `_risk_gate` when its two documents resolve to dicts. -/
def riskResult (dsk apk : List (String × PyVal)) : GateResult :=
  let rollback := pyOr (pyOr (pyOr (dictGet dsk "Rollback plan") (dictGet dsk "Rollback"))
    (dictGet apk "Rollback")) (dictGet apk "rollback")
  let kill_switch := pyOr (pyOr (pyOr (dictGet dsk "Kill-switch") (dictGet dsk "KillSwitch"))
    (dictGet apk "Kill-switch")) (dictGet apk "KillSwitch")
  let stages := as_list (pyOr (pyOr (pyOr (dictGet apk "Stages") (dictGet apk "stages"))
    (dictGet apk "Steps")) (dictGet apk "steps"))
  let thresholds := pyOr (pyOr (pyOr (dictGet apk "Thresholds") (dictGet apk "thresholds"))
    (dictGet apk "Metrics & thresholds")) (dictGet apk "metrics_thresholds")
  let instrumentation := pyOr (dictGet apk "Instrumentation") (dictGet apk "instrumentation")
  let missing := count_missing_required
    [("DS.Global downside bound",
       pyOr (pyOr (dictGet dsk "Global downside bound") (dictGet dsk "GlobalDownsideBound"))
         (dictGet dsk "DownsideBound")),
     ("AP.Rollback", rollback), ("AP.Kill-switch", kill_switch)]
  let notes :=
    (if !missing.isEmpty then
      ["Missing required fields: " ++ String.intercalate ", " missing] else [])
    ++ (if stages.isEmpty then
      ["Action plan has no stages — public rollouts should be staged by default."] else [])
    ++ (if !truthy thresholds || !truthy instrumentation then
      ["Missing instrumentation/thresholds — cannot detect failure early."] else [])
  let fixes :=
    (if !missing.isEmpty then
      ["กำหนด Downside bound + Rollback + Kill-switch ให้ชัด (ห้าม deploy ถ้าไม่มี)"] else [])
    ++ (if stages.isEmpty then
      ["เพิ่ม Stages (Pilot → Limited rollout → Scale) พร้อมเกณฑ์ผ่านแต่ละด่าน"] else [])
    ++ (if !truthy thresholds || !truthy instrumentation then
      ["เพิ่ม Instrumentation + Metrics/Thresholds เพื่อให้ kill-switch ทำงานได้จริง"] else [])
  { gate := "Risk Gate"
    verdict := if missing.isEmpty && stages.length > 0 then "PASS" else "FAIL"
    notes := notes
    fixes := fixes
    score := score_from missing.length (if stages.isEmpty then 3/20 else 0) }

theorem risk_gate_eq (a : List (String × PyVal)) (dsk apk : List (String × PyVal))
    (hd : resolveDoc a "DS" = .dict dsk) (hap : resolveDoc a "AP" = .dict apk) :
    risk_gate a = .ok (riskResult dsk apk) := by
  simp only [risk_gate, hd, hap, pyGet_dict, pyOrE_ok_ok, ebind_ok, epure_eq]
  rfl

/-- The value of `_bias_gate` when its three documents resolve to dicts. -/
def biasResult (smk esk dsk : List (String × PyVal)) : GateResult :=
  let actors := as_list (pyOr (pyOr (dictGet smk "Actors & incentives") (dictGet smk "Actors"))
    (dictGet smk "actors"))
  let incentives := as_list (pyOr (dictGet smk "Incentives") (dictGet smk "incentives"))
  let corruption := as_list
    (pyOr (dictGet smk "Corruption surfaces") (dictGet smk "corruption_surfaces"))
  let hidden_costs := as_list
    (pyOr (dictGet smk "Hidden costs/externalities") (dictGet smk "hidden_costs"))
  let missing := count_missing_required
    [("SM.Actors/Incentives", .list (if !actors.isEmpty then actors else incentives)),
     ("SM.Corruption surfaces", .list corruption),
     ("SM.Hidden costs/externalities", .list hidden_costs)]
  let facts := as_list (pyOr (dictGet esk "Facts") (dictGet esk "facts"))
  let dsOptions := pyOr (pyOr (dictGet dsk "Option A") (dictGet dsk "OptionA")) (dictGet dsk "options")
  let notes :=
    (if !missing.isEmpty then
      ["Missing required fields: " ++ String.intercalate ", " missing] else [])
    ++ (if facts.length < 3 && truthy dsOptions then
      ["Low fact count with active decisions — potential confirmation bias."] else [])
  let fixes :=
    (if !missing.isEmpty then
      ["เติม System Map: Actors/Incentives + Hidden costs + Corruption surfaces เพื่อกัน bias เชิงอำนาจ"] else [])
    ++ (if facts.length < 3 && truthy dsOptions then
      ["เพิ่ม Facts/Unknowns และใส่ counterarguments อย่างน้อย 2 ข้อใน DS/WM"] else [])
  { gate := "Bias Gate"
    verdict := if missing.isEmpty then "PASS" else "FAIL"
    notes := notes
    fixes := fixes
    score := score_from missing.length (if facts.length < 3 then 1/10 else 0) }

theorem bias_gate_eq (a : List (String × PyVal)) (smk esk dsk : List (String × PyVal))
    (hsm : resolveDoc a "SM" = .dict smk) (hes : resolveDoc a "ES" = .dict esk)
    (hd : resolveDoc a "DS" = .dict dsk) :
    bias_gate a = .ok (biasResult smk esk dsk) := by
  simp only [bias_gate, hsm, hes, hd, pyGet_dict, pyOrE_ok_ok, ebind_ok, epure_eq]
  rfl

/-- The value of `_clarity_gate` when its two documents resolve to dicts. -/
def clarityResult (a ick apk : List (String × PyVal)) : GateResult :=
  let citizen_summary := pyOr (pyOr (pyOr (pyOr (dictGet a "CitizenSummary")
    (dictGet ick "Citizen summary")) (dictGet ick "citizen_summary"))
    (dictGet apk "Citizen summary")) (dictGet apk "citizen_summary")
  let checklist := pyOr (pyOr (dictGet apk "Execution checklist") (dictGet apk "checklist"))
    (dictGet apk "Checklist")
  let missing := count_missing_required
    [("IC.Goal", pyOr (dictGet ick "Goal") (dictGet ick "goal")),
     ("IC.Deliverable", pyOr (dictGet ick "Deliverable") (dictGet ick "deliverable")),
     ("IC.Success metrics", pyOr (dictGet ick "Success metrics") (dictGet ick "success_metrics"))]
  let notes :=
    (if !missing.isEmpty then
      ["Missing required fields: " ++ String.intercalate ", " missing] else [])
    ++ (if !is_nonempty_str citizen_summary then
      ["Citizen-facing summary not found."] else [])
    ++ (if !truthy checklist then
      ["Execution checklist missing — hard to operationalize."] else [])
  let fixes :=
    (if !missing.isEmpty then
      ["เติม IC: Goal/Deliverable/Success metrics เพื่อความชัดเจนระดับ 1 หน้า"] else [])
    ++ (if !is_nonempty_str citizen_summary then
      ["เพิ่ม Citizen Summary (ย่อ 8–12 บรรทัด) อธิบายผลลัพธ์/ขั้นตอน/สิทธิอุทธรณ์"] else [])
    ++ (if !truthy checklist then
      ["เพิ่ม Execution checklist สำหรับเจ้าหน้าที่ (ขั้นตอนสั้น ๆ ใช้งานได้จริง)"] else [])
  { gate := "Clarity Gate"
    verdict := if missing.isEmpty && is_nonempty_str citizen_summary then "PASS" else "FAIL"
    notes := notes
    fixes := fixes
    score := score_from missing.length (if !truthy citizen_summary then 1/10 else 0) }

theorem clarity_gate_eq (a : List (String × PyVal)) (ick apk : List (String × PyVal))
    (hic : resolveDoc a "IC" = .dict ick) (hap : resolveDoc a "AP" = .dict apk) :
    clarity_gate a = .ok (clarityResult a ick apk) := by
  simp only [clarity_gate, hic, hap, pyGet_dict, pyOrE_ok_ok, ebind_ok, epure_eq]
  rfl

/-- The report assembled by `evaluate` from the five gate results. -/
def reportOf (strict : Bool) (now : String) (grs : List GateResult)
    (metadata : List (String × PyVal)) : AuditReport :=
  let overall := if grs.all (fun gr => gr.verdict == "PASS") then "PASS" else "FAIL"
  { codex_id := "CIVIC-OS-TH v1.0"
    timestamp_utc := now
    overall_verdict := overall
    gate_results := grs
    summary := summaryOf overall grs
    minimum_fixes := (collectFixes grs).take 8
    metadata := dictMerge [("strict", .bool strict)] metadata }

theorem evaluateGate_ok_shape (strict : Bool) (now : String)
    (a m : List (String × PyVal)) (r : AuditReport)
    (h : evaluateGate strict now a m = .ok r) :
    ∃ t l ri b c, truth_gate a = .ok t ∧ logic_gate a = .ok l ∧ risk_gate a = .ok ri ∧
      bias_gate a = .ok b ∧ clarity_gate a = .ok c ∧ r = reportOf strict now [t, l, ri, b, c] m := by
  unfold evaluateGate at h
  cases ht : truth_gate a with
  | error e => rw [ht] at h; cases e; rw [ebind_err] at h; cases h
  | ok t =>
  rw [ht, ebind_ok] at h
  cases hl : logic_gate a with
  | error e => rw [hl] at h; cases e; rw [ebind_err] at h; cases h
  | ok l =>
  rw [hl, ebind_ok] at h
  cases hri : risk_gate a with
  | error e => rw [hri] at h; cases e; rw [ebind_err] at h; cases h
  | ok ri =>
  rw [hri, ebind_ok] at h
  cases hb : bias_gate a with
  | error e => rw [hb] at h; cases e; rw [ebind_err] at h; cases h
  | ok b =>
  rw [hb, ebind_ok] at h
  cases hc : clarity_gate a with
  | error e => rw [hc] at h; cases e; rw [ebind_err] at h; cases h
  | ok c =>
  rw [hc, ebind_ok] at h
  refine ⟨t, l, ri, b, c, rfl, rfl, rfl, rfl, rfl, ?_⟩
  rw [epure_eq] at h
  cases h
  rfl

/-- The seven document codes a gate may access. -/
def auditDocCodes : List String := ["ES", "FPF", "DS", "WM", "SM", "IC", "AP"]

/-- The body of document `code`, when it resolves to a dict. -/
def docKvs (a : List (String × PyVal)) (code : String) : List (String × PyVal) :=
  match resolveDoc a code with
  | .dict kvs => kvs
  | _ => []

theorem resolveDoc_of_isDict (a : List (String × PyVal)) (code : String)
    (h : isDict (resolveDoc a code) = true) :
    resolveDoc a code = .dict (docKvs a code) := by
  unfold docKvs
  cases hv : resolveDoc a code <;> simp_all [isDict]

theorem evaluateGate_eq (strict : Bool) (now : String) (a m : List (String × PyVal))
    (hdocs : ∀ code ∈ auditDocCodes, isDict (resolveDoc a code) = true) :
    evaluateGate strict now a m = .ok (reportOf strict now
      [truthResult (docKvs a "ES") (docKvs a "FPF") (docKvs a "DS"),
       logicResult (docKvs a "WM") (docKvs a "DS") (docKvs a "FPF"),
       riskResult (docKvs a "DS") (docKvs a "AP"),
       biasResult (docKvs a "SM") (docKvs a "ES") (docKvs a "DS"),
       clarityResult a (docKvs a "IC") (docKvs a "AP")] m) := by
  have hes := resolveDoc_of_isDict a "ES" (hdocs "ES" (by simp [auditDocCodes]))
  have hfpf := resolveDoc_of_isDict a "FPF" (hdocs "FPF" (by simp [auditDocCodes]))
  have hds := resolveDoc_of_isDict a "DS" (hdocs "DS" (by simp [auditDocCodes]))
  have hwm := resolveDoc_of_isDict a "WM" (hdocs "WM" (by simp [auditDocCodes]))
  have hsm := resolveDoc_of_isDict a "SM" (hdocs "SM" (by simp [auditDocCodes]))
  have hic := resolveDoc_of_isDict a "IC" (hdocs "IC" (by simp [auditDocCodes]))
  have hap := resolveDoc_of_isDict a "AP" (hdocs "AP" (by simp [auditDocCodes]))
  unfold evaluateGate
  rw [truth_gate_eq a _ _ _ hes hfpf hds, ebind_ok,
    logic_gate_eq a _ _ _ hwm hds hfpf, ebind_ok,
    risk_gate_eq a _ _ hds hap, ebind_ok,
    bias_gate_eq a _ _ _ hsm hes hds, ebind_ok,
    clarity_gate_eq a _ _ hic hap, ebind_ok, epure_eq]
  rfl

/-! ### Per-gate pass conditions (total forms used in the theorems) -/

/-- The Truth Gate pass condition: required fields present (after alias and
list coercion) and textual evidence found. -/
def truthPassB (esk fpfk : List (String × PyVal)) : Bool :=
  (count_missing_required
    [("ES.Facts", .list (as_list (pyOr (dictGet esk "Facts") (dictGet esk "facts")))),
     ("ES.Assumptions", .list (as_list (pyOr (dictGet esk "Assumptions") (dictGet esk "assumptions")))),
     ("FPF.Falsifiers", .list (as_list (pyOr (dictGet fpfk "Falsifiers") (dictGet fpfk "falsifiers"))))]).isEmpty
  && evidenceB esk

/-- The option count computed by the Logic Gate. -/
def optionsCount (dsk : List (String × PyVal)) : Nat :=
  let optA := pyOr (dictGet dsk "Option A") (dictGet dsk "OptionA")
  let optB := pyOr (dictGet dsk "Option B") (dictGet dsk "OptionB")
  let optC := pyOr (dictGet dsk "Option C") (dictGet dsk "OptionC")
  let base_count := (if truthy optA then 1 else 0) + (if truthy optB then 1 else 0)
    + (if truthy optC then 1 else 0)
  match dictGet dsk "options" with
  | .list xs => max base_count xs.length
  | _ => base_count

/-- The Logic Gate pass condition. -/
def logicPassB (wmk dsk fpfk : List (String × PyVal)) : Bool :=
  (count_missing_required
    [("WM.Causal structure",
       pyOr (pyOr (dictGet wmk "Causal structure") (dictGet wmk "causal_structure"))
         (dictGet wmk "CausalStructure")),
     ("FPF.Variables", .list (as_list (pyOr (dictGet fpfk "Variables") (dictGet fpfk "variables")))),
     ("FPF.Levers", .list (as_list (pyOr (dictGet fpfk "Levers") (dictGet fpfk "levers"))))]).isEmpty
  && optionsCount dsk ≥ 2

/-- The stages list extracted by the Risk Gate. -/
def stagesOf (apk : List (String × PyVal)) : List PyVal :=
  as_list (pyOr (pyOr (pyOr (dictGet apk "Stages") (dictGet apk "stages"))
    (dictGet apk "Steps")) (dictGet apk "steps"))

/-- The Risk Gate pass condition. -/
def riskPassB (dsk apk : List (String × PyVal)) : Bool :=
  (count_missing_required
    [("DS.Global downside bound",
       pyOr (pyOr (dictGet dsk "Global downside bound") (dictGet dsk "GlobalDownsideBound"))
         (dictGet dsk "DownsideBound")),
     ("AP.Rollback", pyOr (pyOr (pyOr (dictGet dsk "Rollback plan") (dictGet dsk "Rollback"))
       (dictGet apk "Rollback")) (dictGet apk "rollback")),
     ("AP.Kill-switch", pyOr (pyOr (pyOr (dictGet dsk "Kill-switch") (dictGet dsk "KillSwitch"))
       (dictGet apk "Kill-switch")) (dictGet apk "KillSwitch"))]).isEmpty
  && (stagesOf apk).length > 0

/-- The Bias Gate pass condition (presence only). -/
def biasPassB (smk : List (String × PyVal)) : Bool :=
  (count_missing_required
    [("SM.Actors/Incentives", .list
       (if !(as_list (pyOr (pyOr (dictGet smk "Actors & incentives") (dictGet smk "Actors"))
         (dictGet smk "actors"))).isEmpty then
          as_list (pyOr (pyOr (dictGet smk "Actors & incentives") (dictGet smk "Actors"))
            (dictGet smk "actors"))
        else as_list (pyOr (dictGet smk "Incentives") (dictGet smk "incentives")))),
     ("SM.Corruption surfaces", .list
       (as_list (pyOr (dictGet smk "Corruption surfaces") (dictGet smk "corruption_surfaces")))),
     ("SM.Hidden costs/externalities", .list
       (as_list (pyOr (dictGet smk "Hidden costs/externalities") (dictGet smk "hidden_costs"))))]).isEmpty

/-- The citizen-facing summary resolved by the Clarity Gate. -/
def citizenSummaryOf (a ick apk : List (String × PyVal)) : PyVal :=
  pyOr (pyOr (pyOr (pyOr (dictGet a "CitizenSummary")
    (dictGet ick "Citizen summary")) (dictGet ick "citizen_summary"))
    (dictGet apk "Citizen summary")) (dictGet apk "citizen_summary")

/-- The Clarity Gate pass condition. -/
def clarityPassB (a ick apk : List (String × PyVal)) : Bool :=
  (count_missing_required
    [("IC.Goal", pyOr (dictGet ick "Goal") (dictGet ick "goal")),
     ("IC.Deliverable", pyOr (dictGet ick "Deliverable") (dictGet ick "deliverable")),
     ("IC.Success metrics", pyOr (dictGet ick "Success metrics") (dictGet ick "success_metrics"))]).isEmpty
  && is_nonempty_str (citizenSummaryOf a ick apk)

theorem truthResult_verdict (esk fpfk dsk : List (String × PyVal)) :
    ((truthResult esk fpfk dsk).verdict = "PASS") ↔ truthPassB esk fpfk = true := by
  have h : (truthResult esk fpfk dsk).verdict =
      if truthPassB esk fpfk = true then "PASS" else "FAIL" := rfl
  rw [h]
  cases hx : truthPassB esk fpfk <;> simp

theorem logicResult_verdict (wmk dsk fpfk : List (String × PyVal)) :
    ((logicResult wmk dsk fpfk).verdict = "PASS") ↔ logicPassB wmk dsk fpfk = true := by
  have h : (logicResult wmk dsk fpfk).verdict =
      if logicPassB wmk dsk fpfk = true then "PASS" else "FAIL" := rfl
  rw [h]
  cases hx : logicPassB wmk dsk fpfk <;> simp

theorem riskResult_verdict (dsk apk : List (String × PyVal)) :
    ((riskResult dsk apk).verdict = "PASS") ↔ riskPassB dsk apk = true := by
  have h : (riskResult dsk apk).verdict =
      if riskPassB dsk apk = true then "PASS" else "FAIL" := rfl
  rw [h]
  cases hx : riskPassB dsk apk <;> simp

theorem biasResult_verdict (smk esk dsk : List (String × PyVal)) :
    ((biasResult smk esk dsk).verdict = "PASS") ↔ biasPassB smk = true := by
  have h : (biasResult smk esk dsk).verdict =
      if biasPassB smk = true then "PASS" else "FAIL" := rfl
  rw [h]
  cases hx : biasPassB smk <;> simp

theorem clarityResult_verdict (a ick apk : List (String × PyVal)) :
    ((clarityResult a ick apk).verdict = "PASS") ↔ clarityPassB a ick apk = true := by
  have h : (clarityResult a ick apk).verdict =
      if clarityPassB a ick apk = true then "PASS" else "FAIL" := rfl
  rw [h]
  cases hx : clarityPassB a ick apk <;> simp

theorem reportOf_overall_iff (strict : Bool) (now : String) (grs : List GateResult)
    (m : List (String × PyVal)) :
    ((reportOf strict now grs m).overall_verdict = "PASS") ↔
      ∀ gr ∈ grs, gr.verdict = "PASS" := by
  have h : (reportOf strict now grs m).overall_verdict =
      if grs.all (fun gr => gr.verdict == "PASS") then "PASS" else "FAIL" := rfl
  rw [h]
  cases hall : grs.all (fun gr => gr.verdict == "PASS") with
  | true =>
    rw [if_pos rfl]
    constructor
    · intro _ gr hgr
      simpa using List.all_eq_true.mp hall gr hgr
    · intro _
      rfl
  | false =>
    rw [if_neg (by decide)]
    constructor
    · intro hcontr
      exact absurd hcontr (by decide)
    · intro hgr
      have hall2 : grs.all (fun gr => gr.verdict == "PASS") = true :=
        List.all_eq_true.mpr (fun gr h => by simpa using hgr gr h)
      rw [hall] at hall2
      cases hall2

/-! ### Minimum-fixes characterization -/

/-- All fix strings of FAILed gates, in gate order. -/
def failedFixes (grs : List GateResult) : List String :=
  ((grs.filter (fun gr => gr.verdict == "FAIL")).map (fun gr => gr.fixes)).flatten

theorem dedupfold_append (xs ys acc : List String) :
    (xs ++ ys).foldl (fun acc2 f => if f ∈ acc2 then acc2 else acc2 ++ [f]) acc =
      ys.foldl (fun acc2 f => if f ∈ acc2 then acc2 else acc2 ++ [f])
        (xs.foldl (fun acc2 f => if f ∈ acc2 then acc2 else acc2 ++ [f]) acc) :=
  List.foldl_append _ _ _ _

theorem collectFixes_aux (grs : List GateResult) :
    ∀ acc : List String,
      grs.foldl
        (fun acc gr =>
          if gr.verdict == "FAIL" then
            gr.fixes.foldl (fun acc2 f => if f ∈ acc2 then acc2 else acc2 ++ [f]) acc
          else acc) acc
      = (failedFixes grs).foldl (fun acc2 f => if f ∈ acc2 then acc2 else acc2 ++ [f]) acc := by
  induction grs with
  | nil => intro acc; rfl
  | cons gr grs ih =>
    intro acc
    rw [List.foldl_cons]
    cases hv : (gr.verdict == "FAIL") with
    | true =>
      have hff : failedFixes (gr :: grs) = gr.fixes ++ failedFixes grs := by
        unfold failedFixes
        simp [List.filter_cons, hv]
      rw [if_pos rfl, hff, dedupfold_append, ih]
    | false =>
      have hff : failedFixes (gr :: grs) = failedFixes grs := by
        unfold failedFixes
        simp [List.filter_cons, hv]
      rw [if_neg (by simp [hv]), hff, ih]

theorem collectFixes_eq (grs : List GateResult) :
    collectFixes grs = dedupKeepFirst (failedFixes grs) :=
  collectFixes_aux grs []

theorem dedupfold_nodup (xs : List String) :
    ∀ acc : List String, acc.Nodup →
      (xs.foldl (fun acc2 f => if f ∈ acc2 then acc2 else acc2 ++ [f]) acc).Nodup := by
  induction xs with
  | nil => intro acc h; exact h
  | cons x xs ih =>
    intro acc h
    rw [List.foldl_cons]
    by_cases hx : x ∈ acc
    · rw [if_pos hx]
      exact ih acc h
    · rw [if_neg hx]
      refine ih _ ?_
      rw [List.nodup_append]
      refine ⟨h, List.nodup_singleton x, fun a ha hax => ?_⟩
      exact hx ((List.mem_singleton.mp hax) ▸ ha)

theorem dedupKeepFirst_nodup (xs : List String) : (dedupKeepFirst xs).Nodup :=
  dedupfold_nodup xs [] List.nodup_nil

/-! ### Concrete artifact bundles (shaped after `tests/test_audit_gate.py`) -/

/-- The all-gates-passing bundle of `test_audit_gate_passes_with_minimum_artifacts`. -/
def bundlePass : List (String × PyVal) :=
  [("IC", .dict [("Goal", .str "Reduce latency"), ("Deliverable", .str "Staged plan"),
     ("Success metrics", .list [.str "service_latency_median"]),
     ("Citizen summary", .str "We will reduce latency with staged rollout and publish metrics.")]),
   ("ES", .dict [("Facts", .list [.str "baseline collected"]),
     ("Assumptions", .list [.str "pilot reflects reality"]),
     ("Unknowns", .list [.str "staff capacity variance"]),
     ("Sources", .list [.str "internal metrics"]),
     ("Data risks", .list [.str "gaming KPIs"])]),
   ("FPF", .dict [("Variables", .list [.str "queue_size"]), ("Levers", .list [.str "staged_rollout"]),
     ("Falsifiers", .list [.str "Latency down but errors up"]),
     ("Minimal tests", .list [.str "pilot test"])]),
   ("WM", .dict [("Causal structure", .str "queue/capacity affects latency"),
     ("Loops", .list [.str "rework loop"]), ("Delays", .list [.str "policy lag"]),
     ("Bottlenecks", .list [.str "review"]), ("Constraints", .list [.str "due process"])]),
   ("SM", .dict [("Actors & incentives", .list [.str "citizens want fast", .str "staff avoid risk"]),
     ("Hidden costs/externalities", .list [.str "shadow paperwork"]),
     ("Corruption surfaces", .list [.str "discretion without logs"])]),
   ("DS", .dict [("Option A", .dict [("name", .str "Safe")]),
     ("Option B", .dict [("name", .str "Balanced")]),
     ("Global downside bound", .str "no scale if falsified"),
     ("Rollback plan", .str "revert to stable stage"), ("Kill-switch", .str "freeze rollout")]),
   ("AP", .dict [("Stages", .list [.str "Pilot"]), ("Instrumentation", .str "collect metrics"),
     ("Metrics & thresholds", .dict [("error_rate", .str "within +10%")]),
     ("Rollback", .str "revert"), ("Kill-switch", .str "freeze"),
     ("Execution checklist", .list [.str "log everything"]),
     ("Citizen summary", .str "Staged rollout with rollback.")])]

/-- `bundlePass` with `ES.Assumptions` replaced by a whitespace-only string
(`" "`), a value the spec calls missing but the code treats as present. -/
def bundleWsAssumptions : List (String × PyVal) :=
  dictSet bundlePass "ES" (.dict [("Facts", .list [.str "baseline collected"]),
     ("Assumptions", .str " "),
     ("Sources", .list [.str "internal metrics"])])

/-! ### Claims C3, C6, C7 -/

/-- C3 (corrected): for bundles whose document bodies are mappings (or
absent/falsy), `overall_verdict` is `PASS` exactly when, for every gate, the
gate's required fields are present as the code computes presence (alias
lookup, then Python-truthiness list coercion for the list-like fields —  so a
truthy non-list value such as a whitespace-only string counts as present —
and the `None`/empty/whitespace/empty-collection test for the scalar fields)
and the gate's hard condition holds (Truth: textual evidence; Logic: option
count ≥ 2; Risk: non-empty stages; Bias: presence only; Clarity: non-empty
citizen-facing summary string); moreover `overall_verdict` is `PASS` iff
every one of the five gate verdicts is `PASS`. -/
theorem C3_overall_verdict_characterization (strict : Bool) (now : String)
    (a m : List (String × PyVal)) (r : AuditReport)
    (hdocs : ∀ code ∈ auditDocCodes, isDict (resolveDoc a code) = true)
    (h : evaluateGate strict now a m = .ok r) :
    (r.overall_verdict = "PASS" ↔
      (truthPassB (docKvs a "ES") (docKvs a "FPF")
        && logicPassB (docKvs a "WM") (docKvs a "DS") (docKvs a "FPF")
        && riskPassB (docKvs a "DS") (docKvs a "AP")
        && biasPassB (docKvs a "SM")
        && clarityPassB a (docKvs a "IC") (docKvs a "AP")) = true)
    ∧ (r.overall_verdict = "PASS" ↔ ∀ gr ∈ r.gate_results, gr.verdict = "PASS") := by
  rw [evaluateGate_eq strict now a m hdocs] at h
  injection h with h
  subst h
  constructor
  · rw [reportOf_overall_iff]
    simp only [List.forall_mem_cons, List.forall_mem_nil, and_true,
      truthResult_verdict, logicResult_verdict, riskResult_verdict, biasResult_verdict,
      clarityResult_verdict, Bool.and_eq_true]
    tauto
  · exact reportOf_overall_iff strict now _ m

/-- C3 counterexample: in `bundleWsAssumptions` the required field
`ES.Assumptions` is the whitespace-only string `" "` — which the claim counts
as missing — yet `evaluate` returns `overall_verdict = "PASS"`, because the
list coercion `_as_list` wraps the truthy string before
`_count_missing_required` can test it. -/
theorem C3_counterexample :
    dictGet (docKvs bundleWsAssumptions "ES") "Assumptions" = .str " " ∧
    pyStrip " " = "" ∧
    Except.map AuditReport.overall_verdict (evaluateGate true "t" bundleWsAssumptions [])
      = .ok "PASS" := by
  refine ⟨rfl, rfl, ?_⟩
  rfl

/-- C3 witness: the characterization applied to the fully populated bundle of
the repository's own test (all hypotheses discharged on a concrete input). -/
theorem C3_witness :
    (∀ code ∈ auditDocCodes, isDict (resolveDoc bundlePass code) = true) ∧
    ∃ r, evaluateGate true "t" bundlePass [] = .ok r ∧
      ((r.overall_verdict = "PASS" ↔
        (truthPassB (docKvs bundlePass "ES") (docKvs bundlePass "FPF")
          && logicPassB (docKvs bundlePass "WM") (docKvs bundlePass "DS") (docKvs bundlePass "FPF")
          && riskPassB (docKvs bundlePass "DS") (docKvs bundlePass "AP")
          && biasPassB (docKvs bundlePass "SM")
          && clarityPassB bundlePass (docKvs bundlePass "IC") (docKvs bundlePass "AP")) = true)
      ∧ (r.overall_verdict = "PASS" ↔ ∀ gr ∈ r.gate_results, gr.verdict = "PASS")) := by
  refine ⟨by decide, ?_⟩
  refine ⟨_, rfl, ?_⟩
  exact C3_overall_verdict_characterization true "t" bundlePass [] _ (by decide) rfl

/-- Modelled from the spec: `minimum_fixes` as the spec describes it — the
FIRST fix string of each FAILed gate, in gate order, deduplicated, truncated
to 8. -/
def minimumFixesSpec (grs : List GateResult) : List String :=
  (dedupKeepFirst ((grs.filter (fun gr => gr.verdict == "FAIL")).filterMap
    (fun gr => gr.fixes.head?))).take 8

/-- C6 (amended): `minimum_fixes` equals ALL fix strings of each FAILed gate
(not just the first), in gate order, deduplicated by exact match and
truncated to 8; in particular it never exceeds 8 entries and holds no
duplicates. -/
theorem C6_minimum_fixes_characterization (strict : Bool) (now : String)
    (a m : List (String × PyVal)) (r : AuditReport)
    (h : evaluateGate strict now a m = .ok r) :
    r.minimum_fixes = (dedupKeepFirst (failedFixes r.gate_results)).take 8 ∧
    r.minimum_fixes.length ≤ 8 ∧ r.minimum_fixes.Nodup := by
  obtain ⟨t, l, ri, b, c, _, _, _, _, _, hr⟩ := evaluateGate_ok_shape strict now a m r h
  subst hr
  refine ⟨?_, ?_, ?_⟩
  · show (collectFixes [t, l, ri, b, c]).take 8
      = (dedupKeepFirst (failedFixes [t, l, ri, b, c])).take 8
    rw [collectFixes_eq]
  · show ((collectFixes [t, l, ri, b, c]).take 8).length ≤ 8
    rw [List.length_take]
    exact min_le_left _ _
  · show ((collectFixes [t, l, ri, b, c]).take 8).Nodup
    rw [collectFixes_eq]
    exact (dedupKeepFirst_nodup _).sublist (List.take_sublist _ _)

/-- C6 counterexample: on the empty bundle every gate fails and
`minimum_fixes` keeps ALL fixes of the failed gates (8 after truncation),
not the one-per-failed-gate list the claim describes (5 entries here). -/
theorem C6_counterexample :
    Except.map (fun r => (r.minimum_fixes.length, (minimumFixesSpec r.gate_results).length,
        r.minimum_fixes == minimumFixesSpec r.gate_results))
      (evaluateGate true "t" [] []) = .ok (8, 5, false) := by
  rfl

/-- C6 witness: the characterization applied to the empty bundle. -/
theorem C6_witness :
    ∃ r, evaluateGate true "tw" [] [] = .ok r ∧
      (r.minimum_fixes = (dedupKeepFirst (failedFixes r.gate_results)).take 8 ∧
       r.minimum_fixes.length ≤ 8 ∧ r.minimum_fixes.Nodup) := by
  refine ⟨_, rfl, ?_⟩
  exact C6_minimum_fixes_characterization true "tw" [] [] _ rfl

/-- C7 (amended): `evaluate` returns a report — never raises — for every
bundle in which each of the seven document bodies is a mapping or absent or
falsy (equivalently: each resolved document is a dict); malformed *fields*
inside documents never raise.  A truthy non-mapping document body, however,
raises `AttributeError` (see the counterexample). -/
theorem C7_no_raise (strict : Bool) (now : String) (a m : List (String × PyVal))
    (hdocs : ∀ code ∈ auditDocCodes, isDict (resolveDoc a code) = true) :
    ∃ r, evaluateGate strict now a m = .ok r :=
  ⟨_, evaluateGate_eq strict now a m hdocs⟩

/-- C7 counterexample: a bundle whose `ES` document body is the (truthy,
non-mapping) string `"x"` makes `evaluate` raise `AttributeError` — the
claim says it never raises. -/
theorem C7_counterexample :
    evaluateGate true "t" [("ES", .str "x")] [] = .error () := by
  rfl

/-- C7 witness: the no-raise theorem applied to the empty bundle. -/
theorem C7_witness :
    (∀ code ∈ auditDocCodes, isDict (resolveDoc ([] : List (String × PyVal)) code) = true) ∧
    ∃ r, evaluateGate false "tw" [] [] = .ok r :=
  ⟨by decide, C7_no_raise false "tw" [] [] (by decide)⟩

/-! ### Falsifier rule characterizations -/

theorem evaluateF_hits_eq (cfg : FalsifierConfig) (now : String) (snap : MetricsSnapshot) :
    (evaluateF cfg now snap).hits =
      hits_baseline_missing cfg snap ++ hits_latency_down_errors_up cfg snap
        ++ hits_throughput_up_disparity_up cfg snap ++ hits_transparency_low cfg snap
        ++ hits_shadow_paperwork_grows cfg snap ++ hits_citizen_burden_up cfg snap
        ++ hits_error_rate_extreme snap := rfl

theorem hits_baseline_mem (cfg : FalsifierConfig) (snap : MetricsSnapshot) (c : String) :
    c ∈ (hits_baseline_missing cfg snap).map (fun h => h.code) ↔
      (c = "baseline_missing" ∧ (cfg.require_baseline && !baseTruthy snap.baseline) = true) := by
  unfold hits_baseline_missing
  cases hb : cfg.require_baseline && !baseTruthy snap.baseline <;> simp [hb]

theorem hits_rule1_mem (cfg : FalsifierConfig) (snap : MetricsSnapshot) (c : String) :
    c ∈ (hits_latency_down_errors_up cfg snap).map (fun h => h.code) ↔
      (c = "latency_down_errors_up" ∧
        ∃ lc ec, chKey snap.current snap.baseline "service_latency_median" = some lc ∧
          chKey snap.current snap.baseline "error_rate" = some ec ∧
          lc ≤ cfg.thresholds.latency_improve ∧ ec ≥ cfg.thresholds.error_worsen) := by
  unfold hits_latency_down_errors_up
  cases h1 : chKey snap.current snap.baseline "service_latency_median" with
  | none => simp
  | some lc =>
    cases h2 : chKey snap.current snap.baseline "error_rate" with
    | none => simp
    | some ec =>
      by_cases hc : lc ≤ cfg.thresholds.latency_improve ∧ ec ≥ cfg.thresholds.error_worsen
      · simp [hc.1, hc.2]
      · rw [not_and_or] at hc
        rcases hc with hc | hc <;> simp [hc]

theorem hits_rule2_mem (cfg : FalsifierConfig) (snap : MetricsSnapshot) (c : String) :
    c ∈ (hits_throughput_up_disparity_up cfg snap).map (fun h => h.code) ↔
      (c = "throughput_up_disparity_up" ∧
        ∃ tc dc, chKey snap.current snap.baseline "throughput" = some tc ∧
          chKey snap.current snap.baseline "disparity_index" = some dc ∧
          tc ≥ cfg.thresholds.throughput_improve ∧ dc ≥ cfg.thresholds.disparity_worsen) := by
  unfold hits_throughput_up_disparity_up
  cases h1 : chKey snap.current snap.baseline "throughput" with
  | none => simp
  | some tc =>
    cases h2 : chKey snap.current snap.baseline "disparity_index" with
    | none => simp
    | some dc =>
      by_cases hc : tc ≥ cfg.thresholds.throughput_improve ∧ dc ≥ cfg.thresholds.disparity_worsen
      · simp [hc.1, hc.2]
      · rw [not_and_or] at hc
        rcases hc with hc | hc <;> simp [hc]

theorem hits_trans_mem (cfg : FalsifierConfig) (snap : MetricsSnapshot) (c : String) :
    c ∈ (hits_transparency_low cfg snap).map (fun h => h.code) ↔
      (c = "transparency_claims_unverifiable_logs" ∧
        ∃ t, numF (dictGet snap.current "transparency_coverage") = some t ∧
          t < cfg.thresholds.transparency_min) := by
  unfold hits_transparency_low
  cases ht : numF (dictGet snap.current "transparency_coverage") with
  | none => simp
  | some t =>
    by_cases hlt : t < cfg.thresholds.transparency_min
    · simp [hlt]
    · simp [hlt]

theorem hits_shadow_mem (cfg : FalsifierConfig) (snap : MetricsSnapshot) (c : String) :
    c ∈ (hits_shadow_paperwork_grows cfg snap).map (fun h => h.code) ↔
      (c = "shadow_paperwork_grows" ∧
        ∃ sc, chKey snap.current snap.baseline "shadow_paperwork_index" = some sc ∧
          sc ≥ cfg.thresholds.shadow_paperwork_worsen) := by
  unfold hits_shadow_paperwork_grows
  cases hch : chKey snap.current snap.baseline "shadow_paperwork_index" with
  | none => simp
  | some sc =>
    by_cases hge : sc ≥ cfg.thresholds.shadow_paperwork_worsen
    · simp [hge]
    · simp [hge]

theorem hits_burden_mem (cfg : FalsifierConfig) (snap : MetricsSnapshot) (c : String) :
    c ∈ (hits_citizen_burden_up cfg snap).map (fun h => h.code) ↔
      (c = "citizen_burden_up_after_digital" ∧
        ∃ bc, chKey snap.current snap.baseline "citizen_burden_index" = some bc ∧
          bc ≥ cfg.thresholds.burden_worsen) := by
  unfold hits_citizen_burden_up
  cases hch : chKey snap.current snap.baseline "citizen_burden_index" with
  | none => simp
  | some bc =>
    by_cases hge : bc ≥ cfg.thresholds.burden_worsen
    · simp [hge]
    · simp [hge]

theorem hits_extreme_mem (snap : MetricsSnapshot) (c : String) :
    c ∈ (hits_error_rate_extreme snap).map (fun h => h.code) ↔
      (c = "error_rate_extreme" ∧
        ∃ e, numF (dictGet snap.current "error_rate") = some e ∧ e ≥ mkRat 1 5) := by
  unfold hits_error_rate_extreme
  cases he : numF (dictGet snap.current "error_rate") with
  | none => simp
  | some e =>
    by_cases hge : e ≥ mkRat 1 5
    · simp [hge]
    · simp [hge]

theorem evaluateF_verdict_iff (cfg : FalsifierConfig) (now : String) (snap : MetricsSnapshot) :
    (evaluateF cfg now snap).verdict = "FALSIFIED" ↔
      ∃ h ∈ (evaluateF cfg now snap).hits, h.severity = "HIGH" := by
  have hv : (evaluateF cfg now snap).verdict =
      if ((evaluateF cfg now snap).hits.filter (fun h => h.severity == "HIGH")).length > 0
      then "FALSIFIED" else "OK" := rfl
  rw [hv]
  by_cases hl : ((evaluateF cfg now snap).hits.filter (fun h => h.severity == "HIGH")).length > 0
  · rw [if_pos hl]
    constructor
    · intro _
      obtain ⟨h, hmem⟩ := List.exists_mem_of_length_pos hl
      obtain ⟨hin, hsev⟩ := List.mem_filter.mp hmem
      exact ⟨h, hin, by simpa using hsev⟩
    · intro _
      rfl
  · rw [if_neg hl]
    constructor
    · intro hcontr
      exact absurd hcontr (by decide)
    · rintro ⟨h, hin, hsev⟩
      refine absurd ?_ hl
      have : h ∈ (evaluateF cfg now snap).hits.filter (fun h => h.severity == "HIGH") :=
        List.mem_filter.mpr ⟨hin, by simp [hsev]⟩
      exact List.length_pos.mpr (fun hnil => by rw [hnil] at this; cases this)

theorem memCode_rule1 (cfg : FalsifierConfig) (now : String) (snap : MetricsSnapshot) :
    "latency_down_errors_up" ∈ (evaluateF cfg now snap).hits.map (fun h => h.code) ↔
      ∃ lc ec, chKey snap.current snap.baseline "service_latency_median" = some lc ∧
        chKey snap.current snap.baseline "error_rate" = some ec ∧
        lc ≤ cfg.thresholds.latency_improve ∧ ec ≥ cfg.thresholds.error_worsen := by
  rw [evaluateF_hits_eq]
  simp only [List.map_append, List.mem_append]
  rw [hits_baseline_mem, hits_rule1_mem, hits_rule2_mem, hits_trans_mem, hits_shadow_mem,
    hits_burden_mem, hits_extreme_mem]
  simp

theorem memCode_rule2 (cfg : FalsifierConfig) (now : String) (snap : MetricsSnapshot) :
    "throughput_up_disparity_up" ∈ (evaluateF cfg now snap).hits.map (fun h => h.code) ↔
      ∃ tc dc, chKey snap.current snap.baseline "throughput" = some tc ∧
        chKey snap.current snap.baseline "disparity_index" = some dc ∧
        tc ≥ cfg.thresholds.throughput_improve ∧ dc ≥ cfg.thresholds.disparity_worsen := by
  rw [evaluateF_hits_eq]
  simp only [List.map_append, List.mem_append]
  rw [hits_baseline_mem, hits_rule1_mem, hits_rule2_mem, hits_trans_mem, hits_shadow_mem,
    hits_burden_mem, hits_extreme_mem]
  simp

theorem memCode_trans (cfg : FalsifierConfig) (now : String) (snap : MetricsSnapshot) :
    "transparency_claims_unverifiable_logs" ∈ (evaluateF cfg now snap).hits.map (fun h => h.code) ↔
      ∃ t, numF (dictGet snap.current "transparency_coverage") = some t ∧
        t < cfg.thresholds.transparency_min := by
  rw [evaluateF_hits_eq]
  simp only [List.map_append, List.mem_append]
  rw [hits_baseline_mem, hits_rule1_mem, hits_rule2_mem, hits_trans_mem, hits_shadow_mem,
    hits_burden_mem, hits_extreme_mem]
  simp

theorem memCode_shadow (cfg : FalsifierConfig) (now : String) (snap : MetricsSnapshot) :
    "shadow_paperwork_grows" ∈ (evaluateF cfg now snap).hits.map (fun h => h.code) ↔
      ∃ sc, chKey snap.current snap.baseline "shadow_paperwork_index" = some sc ∧
        sc ≥ cfg.thresholds.shadow_paperwork_worsen := by
  rw [evaluateF_hits_eq]
  simp only [List.map_append, List.mem_append]
  rw [hits_baseline_mem, hits_rule1_mem, hits_rule2_mem, hits_trans_mem, hits_shadow_mem,
    hits_burden_mem, hits_extreme_mem]
  simp

theorem memCode_burden (cfg : FalsifierConfig) (now : String) (snap : MetricsSnapshot) :
    "citizen_burden_up_after_digital" ∈ (evaluateF cfg now snap).hits.map (fun h => h.code) ↔
      ∃ bc, chKey snap.current snap.baseline "citizen_burden_index" = some bc ∧
        bc ≥ cfg.thresholds.burden_worsen := by
  rw [evaluateF_hits_eq]
  simp only [List.map_append, List.mem_append]
  rw [hits_baseline_mem, hits_rule1_mem, hits_rule2_mem, hits_trans_mem, hits_shadow_mem,
    hits_burden_mem, hits_extreme_mem]
  simp

theorem memCode_extreme (cfg : FalsifierConfig) (now : String) (snap : MetricsSnapshot) :
    "error_rate_extreme" ∈ (evaluateF cfg now snap).hits.map (fun h => h.code) ↔
      ∃ e, numF (dictGet snap.current "error_rate") = some e ∧ e ≥ mkRat 1 5 := by
  rw [evaluateF_hits_eq]
  simp only [List.map_append, List.mem_append]
  rw [hits_baseline_mem, hits_rule1_mem, hits_rule2_mem, hits_trans_mem, hits_shadow_mem,
    hits_burden_mem, hits_extreme_mem]
  simp

/-! ### Claims C4, C5, C10 -/

/-- C4 (corrected): the verdict is `FALSIFIED` iff at least one HIGH-severity
hit fired (MEDIUM/LOW alone never falsify), and each change-based rule plus
the absolute error-rate check (threshold `0.20 = mkRat 1 5`) fires at an
inclusive boundary (`≤`/`≥` comparisons, so a change exactly equal to the
threshold triggers), while the transparency-minimum rule is strict (`<`):
coverage exactly equal to `transparency_min` does not trigger it. -/
theorem C4_falsified_iff (cfg : FalsifierConfig) (now : String) (snap : MetricsSnapshot) :
    ((evaluateF cfg now snap).verdict = "FALSIFIED" ↔
      ∃ h ∈ (evaluateF cfg now snap).hits, h.severity = "HIGH")
    ∧ ("latency_down_errors_up" ∈ (evaluateF cfg now snap).hits.map (fun h => h.code) ↔
        ∃ lc ec, chKey snap.current snap.baseline "service_latency_median" = some lc ∧
          chKey snap.current snap.baseline "error_rate" = some ec ∧
          lc ≤ cfg.thresholds.latency_improve ∧ ec ≥ cfg.thresholds.error_worsen)
    ∧ ("throughput_up_disparity_up" ∈ (evaluateF cfg now snap).hits.map (fun h => h.code) ↔
        ∃ tc dc, chKey snap.current snap.baseline "throughput" = some tc ∧
          chKey snap.current snap.baseline "disparity_index" = some dc ∧
          tc ≥ cfg.thresholds.throughput_improve ∧ dc ≥ cfg.thresholds.disparity_worsen)
    ∧ ("shadow_paperwork_grows" ∈ (evaluateF cfg now snap).hits.map (fun h => h.code) ↔
        ∃ sc, chKey snap.current snap.baseline "shadow_paperwork_index" = some sc ∧
          sc ≥ cfg.thresholds.shadow_paperwork_worsen)
    ∧ ("citizen_burden_up_after_digital" ∈ (evaluateF cfg now snap).hits.map (fun h => h.code) ↔
        ∃ bc, chKey snap.current snap.baseline "citizen_burden_index" = some bc ∧
          bc ≥ cfg.thresholds.burden_worsen)
    ∧ ("error_rate_extreme" ∈ (evaluateF cfg now snap).hits.map (fun h => h.code) ↔
        ∃ e, numF (dictGet snap.current "error_rate") = some e ∧ e ≥ mkRat 1 5)
    ∧ ("transparency_claims_unverifiable_logs" ∈ (evaluateF cfg now snap).hits.map (fun h => h.code) ↔
        ∃ t, numF (dictGet snap.current "transparency_coverage") = some t ∧
          t < cfg.thresholds.transparency_min) :=
  ⟨evaluateF_verdict_iff cfg now snap, memCode_rule1 cfg now snap, memCode_rule2 cfg now snap,
    memCode_shadow cfg now snap, memCode_burden cfg now snap, memCode_extreme cfg now snap,
    memCode_trans cfg now snap⟩

/-- C4 counterexample: transparency coverage exactly at the default minimum
(`0.60`) is defined and equal to the threshold, yet no hit fires and the
verdict is `OK` — the boundary is exclusive for this rule, against the
claim's "inclusive boundary triggers". -/
theorem C4_counterexample :
    numF (dictGet [("transparency_coverage", PyVal.float (mkRat 3 5))] "transparency_coverage")
        = some defaultThresholds.transparency_min ∧
    (evaluateF { thresholds := defaultThresholds, require_baseline := false } "t"
        { current := [("transparency_coverage", PyVal.float (mkRat 3 5))], baseline := Option.none,
          window := "w", metadata := [] }).hits = [] ∧
    (evaluateF { thresholds := defaultThresholds, require_baseline := false } "t"
        { current := [("transparency_coverage", PyVal.float (mkRat 3 5))], baseline := Option.none,
          window := "w", metadata := [] }).verdict = "OK" := by
  refine ⟨by rfl, by rfl, by rfl⟩

/-- C5 (confirmed): `_pct_change` is `None` when either operand is `None`
(missing or non-numeric input) or the baseline is zero, and otherwise is
exactly `(c-b)/abs(b)`; an undefined change makes each dependent falsifier
rule be skipped — its hit never appears — and the engine (a total function
here) raises no error. -/
theorem C5_pct_change_spec :
    (∀ co bo : Option ℚ,
      ((co = Option.none ∨ bo = Option.none ∨ bo = some 0) → pct_change co bo = Option.none) ∧
      (∀ x y : ℚ, co = some x → bo = some y → y ≠ 0 →
        pct_change co bo = some ((x - y) / |y|)))
    ∧ (∀ (cfg : FalsifierConfig) (now : String) (snap : MetricsSnapshot),
        (chKey snap.current snap.baseline "service_latency_median" = Option.none ∨
         chKey snap.current snap.baseline "error_rate" = Option.none) →
        "latency_down_errors_up" ∉ (evaluateF cfg now snap).hits.map (fun h => h.code))
    ∧ (∀ (cfg : FalsifierConfig) (now : String) (snap : MetricsSnapshot),
        (chKey snap.current snap.baseline "throughput" = Option.none ∨
         chKey snap.current snap.baseline "disparity_index" = Option.none) →
        "throughput_up_disparity_up" ∉ (evaluateF cfg now snap).hits.map (fun h => h.code))
    ∧ (∀ (cfg : FalsifierConfig) (now : String) (snap : MetricsSnapshot),
        chKey snap.current snap.baseline "shadow_paperwork_index" = Option.none →
        "shadow_paperwork_grows" ∉ (evaluateF cfg now snap).hits.map (fun h => h.code))
    ∧ (∀ (cfg : FalsifierConfig) (now : String) (snap : MetricsSnapshot),
        chKey snap.current snap.baseline "citizen_burden_index" = Option.none →
        "citizen_burden_up_after_digital" ∉ (evaluateF cfg now snap).hits.map (fun h => h.code)) := by
  refine ⟨?_, ?_, ?_, ?_, ?_⟩
  · intro co bo
    constructor
    · rintro (rfl | rfl | rfl)
      · rfl
      · cases co <;> rfl
      · cases co with
        | none => rfl
        | some x =>
          show (if (0 : ℚ) = 0 then Option.none else some ((x - 0) / |(0 : ℚ)|)) = Option.none
          rw [if_pos rfl]
    · rintro x y rfl rfl hy
      show (if y = 0 then Option.none else some ((x - y) / |y|)) = some ((x - y) / |y|)
      rw [if_neg hy]
  · intro cfg now snap hnone hmem
    rw [memCode_rule1] at hmem
    obtain ⟨lc, ec, he1, he2, -, -⟩ := hmem
    rcases hnone with hn | hn
    · rw [hn] at he1
      cases he1
    · rw [hn] at he2
      cases he2
  · intro cfg now snap hnone hmem
    rw [memCode_rule2] at hmem
    obtain ⟨tc, dc, he1, he2, -, -⟩ := hmem
    rcases hnone with hn | hn
    · rw [hn] at he1
      cases he1
    · rw [hn] at he2
      cases he2
  · intro cfg now snap hnone hmem
    rw [memCode_shadow] at hmem
    obtain ⟨sc, he1, -⟩ := hmem
    rw [hnone] at he1
    cases he1
  · intro cfg now snap hnone hmem
    rw [memCode_burden] at hmem
    obtain ⟨bc, he1, -⟩ := hmem
    rw [hnone] at he1
    cases he1

/-- C5 witness: the specification applied at concrete inputs — a defined
change `(3 - (-2))/|-2|`, the three undefined cases, and a skipped rule on an
empty snapshot. -/
theorem C5_witness :
    pct_change (some 3) (some (-2)) = some ((3 - (-2)) / |(-2 : ℚ)|) ∧
    pct_change Option.none (some 1) = Option.none ∧
    pct_change (some 1) Option.none = Option.none ∧
    pct_change (some 1) (some 0) = Option.none ∧
    "shadow_paperwork_grows" ∉
      (evaluateF { thresholds := defaultThresholds, require_baseline := true } "tw"
        { current := [], baseline := Option.none, window := "w", metadata := [] }).hits.map
        (fun h => h.code) := by
  refine ⟨?_, ?_, ?_, ?_, ?_⟩
  · exact (C5_pct_change_spec.1 (some 3) (some (-2))).2 3 (-2) rfl rfl (by norm_num)
  · exact (C5_pct_change_spec.1 Option.none (some 1)).1 (Or.inl rfl)
  · exact (C5_pct_change_spec.1 (some 1) Option.none).1 (Or.inr (Or.inl rfl))
  · exact (C5_pct_change_spec.1 (some 1) (some 0)).1 (Or.inr (Or.inr rfl))
  · exact C5_pct_change_spec.2.2.2.1 { thresholds := defaultThresholds, require_baseline := true }
      "tw" _ rfl

/-- C10 (confirmed): the Metrics module's `_num` maps booleans to `None`
while the Falsification Engine's `_num` maps `True`/`False` to `1.0`/`0.0`;
consequently on a boolean-valued metric the engine's percentage change is
defined (and the engine even falsifies on `error_rate=True` via
`error_rate_extreme`), while the metric-delta calculator reports the change
as undefined. -/
theorem C10_bool_coercion_divergence :
    (∀ b : Bool, numM (.bool b) = Option.none)
    ∧ (∀ b : Bool, numF (.bool b) = some (if b then 1 else 0))
    ∧ metricsPctAt [("error_rate", PyVal.bool true)] (some [("error_rate", PyVal.bool true)])
        "error_rate" = Option.none
    ∧ chKey [("error_rate", PyVal.bool true)] (some [("error_rate", PyVal.bool true)])
        "error_rate" = some 0
    ∧ (evaluateF { thresholds := defaultThresholds, require_baseline := true } "t"
        { current := [("error_rate", PyVal.bool true)],
          baseline := some [("error_rate", PyVal.bool true)], window := "w", metadata := [] }).verdict
        = "FALSIFIED" := by
  refine ⟨?_, ?_, ?_, ?_, ?_⟩
  · intro b
    cases b <;> rfl
  · intro b
    cases b <;> rfl
  · rfl
  · show (if (1 : ℚ) = 0 then Option.none else some (((1 : ℚ) - 1) / |(1 : ℚ)|)) = some 0
    rw [if_neg one_ne_zero]
    norm_num
  · rfl

/-! ### Claims C1, C2, C8, C9 (signed log) -/

/-- The hash-chain linking property: each entry's `prev_hash` is the previous
entry's stored `hash`, starting from `prev` (`""` for a fresh log). -/
def chainLinked (prev : String) : List SignedEntry → Prop
  | [] => True
  | e :: es => e.prev_hash = prev ∧ chainLinked e.hash es

/-- A minimal entry as the orchestrator would construct one (`hash` and
`signature` left at their `""` defaults). -/
def eC1 : SignedEntry :=
  { run_id := "r", seq := 0, event := "e", payload := [], timestamp_utc := "t",
    prev_hash := "", hash := "", signature := "" }

/-- The line `append` writes for `eC1` on a fresh unsigned log. -/
def lineC1 : String :=
  "\x7b\"event\":\"e\",\"hash\":\"892eb4bcc5645ebf7e6f262df8454b63e4b60283e89d927ac596fb61832e3bef\",\"payload\":\x7b\x7d,\"prev_hash\":\"\",\"run_id\":\"r\",\"seq\":0,\"signature\":\"\",\"timestamp_utc\":\"t\"\x7d"

/-- `lineC1` as parsed by `json.loads`. -/
def objC1 : List (String × JVal) :=
  [("event", .str "e"),
   ("hash", .str "892eb4bcc5645ebf7e6f262df8454b63e4b60283e89d927ac596fb61832e3bef"),
   ("payload", .obj []), ("prev_hash", .str ""), ("run_id", .str "r"), ("seq", .int 0),
   ("signature", .str ""), ("timestamp_utc", .str "t")]

theorem appendAll_eC1 : (appendAll (smInit Option.none) [eC1]).1 = [lineC1] := by rfl

theorem jsonParse_lineC1 : jsonParse lineC1 = .ok (.obj objC1) := by rfl

theorem sha_recompute_objC1 :
    sha256hexStr (canonicalJson (.obj (jdictSet objC1 "signature" (.str ""))))
      = "66c1dda13dc803b52c058753c3036869d4e7eb2b3f899dbb397619b68bd9b865" := by rfl

theorem verifyStep_lineC1 :
    verifyStep Option.none { checked := 0, prev := .str "", bad := 0, notes := [] } lineC1
      = .ok { checked := 1,
              prev := .str "892eb4bcc5645ebf7e6f262df8454b63e4b60283e89d927ac596fb61832e3bef",
              bad := 1, notes := ["Hash mismatch at seq=0"] } := by
  rw [verifyStep, jsonParse_lineC1, ebind_ok]
  show (Except.ok objC1 >>= _) = _
  rw [ebind_ok]
  show Except.ok _ = _
  simp only [sha_recompute_objC1]
  rfl

theorem lineC1_not_blank : ¬ (pyStrip lineC1 = "") := by decide

/-- C1 (code bug): appending one entry to a fresh log — with NO tampering —
and then verifying already reports a hash mismatch (`ok=false, bad=1,
checked=1`), never the claimed `ok=true, bad=0, checked=N`: `verify_chain`
recomputes each entry's hash over the parsed object whose `hash` field holds
the stored digest, while `append` computed that digest while the `hash`
field was still `""` (`_compute_hash` clears only `signature`). -/
theorem C1_roundtrip_bug :
    verify_chain Option.none (some (appendAll (smInit Option.none) [eC1]).1)
      = .ok [("ok", .bool false), ("checked", .int 1), ("bad", .int 1),
             ("notes", .list [.str "Hash mismatch at seq=0"]),
             ("signature_enabled", .bool false)] := by
  rw [appendAll_eC1, verify_chain, verifyLoop, if_neg lineC1_not_blank, verifyStep_lineC1,
    ebind_ok, verifyLoop, ebind_ok]
  rfl

theorem appendAll_invariant (es : List SignedEntry) :
    ∀ st : SMState, (∀ e ∈ es, e.hash = "") →
      chainLinked st.prev_hash (appendAll st es).2.1 ∧
      ∀ e2 ∈ (appendAll st es).2.1,
        e2.hash = compute_hash (SignedEntry.to_dict { e2 with hash := "" }) ∧
        e2.signature = compute_signature st.secret e2.hash := by
  induction es with
  | nil =>
    intro st _
    exact ⟨trivial, fun e2 he => absurd he (List.not_mem_nil e2)⟩
  | cons e es ih =>
    intro st hh
    obtain ⟨rid, sq, ev, pl, ts, ph, hhs, sg⟩ := e
    have h0 : hhs = "" := hh _ (List.mem_cons_self _ _)
    subst h0
    have htl : ∀ e2 ∈ es, e2.hash = "" := fun e2 he2 => hh e2 (List.mem_cons_of_mem _ he2)
    have hihs := ih (append st ⟨rid, sq, ev, pl, ts, ph, "", sg⟩).2.2 htl
    constructor
    · show chainLinked st.prev_hash
        ((append st ⟨rid, sq, ev, pl, ts, ph, "", sg⟩).2.1
          :: (appendAll (append st ⟨rid, sq, ev, pl, ts, ph, "", sg⟩).2.2 es).2.1)
      refine ⟨rfl, ?_⟩
      exact hihs.1
    · intro e2 he2
      rw [show (appendAll st (⟨rid, sq, ev, pl, ts, ph, "", sg⟩ :: es)).2.1
          = (append st ⟨rid, sq, ev, pl, ts, ph, "", sg⟩).2.1
            :: (appendAll (append st ⟨rid, sq, ev, pl, ts, ph, "", sg⟩).2.2 es).2.1 from rfl]
        at he2
      rcases List.mem_cons.mp he2 with he2 | he2
      · subst he2
        exact ⟨rfl, rfl⟩
      · exact hihs.2 e2 he2

/-- C2 (corrected): every log produced by `append` on default-constructed
entries (`hash` field `""`) satisfies the chain invariant — `prev_hash`
links, starting from `""` — the stored signature is `HMAC(secret, hash)`
when a secret is configured, and the stored hash is the digest of the
canonical serialization of the entry with the signature cleared AND the
`hash` field cleared (the entry as it stood when `_compute_hash` ran), not
of the persisted entry with only the signature cleared. -/
theorem C2_chain_invariant (secret : Option (List Nat)) (es : List SignedEntry)
    (hhash : ∀ e ∈ es, e.hash = "") :
    chainLinked "" (appendAll (smInit secret) es).2.1 ∧
    ∀ e2 ∈ (appendAll (smInit secret) es).2.1,
      e2.hash = compute_hash (SignedEntry.to_dict { e2 with hash := "" }) ∧
      e2.signature = compute_signature secret e2.hash :=
  appendAll_invariant es (smInit secret) hhash

/-- A second concrete entry (non-empty payload) for the C2 counterexample. -/
def eC2 : SignedEntry :=
  { run_id := "r2", seq := 0, event := "x", payload := [("k", .int 1)],
    timestamp_utc := "t2", prev_hash := "", hash := "", signature := "" }

/-- C2 counterexample: for a concrete appended entry, the stored hash does
NOT equal the hash of the canonical serialization of the stored entry with
(only) the signature cleared — the latter still contains the stored hash in
its `hash` field. -/
theorem C2_counterexample :
    (append (smInit Option.none) eC2).2.1.hash
      ≠ compute_hash (SignedEntry.to_dict (append (smInit Option.none) eC2).2.1) := by
  have h1 : (append (smInit Option.none) eC2).2.1.hash
      = "cc85d94f2b467ab5350c2bbd90ee67992992937de26240696d7cd82d95a21575" := by rfl
  have h2 : compute_hash (SignedEntry.to_dict (append (smInit Option.none) eC2).2.1)
      = "5b8193b7a323e53a01192ff2d1cc9cb3ef284edcd5251c843faf676498f6b7df" := by rfl
  rw [h1, h2]
  decide

/-- The entry used by the C2 witness. -/
def eC2w : SignedEntry :=
  { run_id := "rw", seq := 0, event := "ew", payload := [], timestamp_utc := "tw",
    prev_hash := "", hash := "", signature := "" }

/-- C2 witness: the invariant applied to a one-entry log under a signing
secret, with the default-hash hypothesis discharged concretely. -/
theorem C2_witness :
    (∀ e ∈ [eC2w], e.hash = "") ∧
    (chainLinked "" (appendAll (smInit (some (utf8Bytes "s3"))) [eC2w]).2.1 ∧
     ∀ e2 ∈ (appendAll (smInit (some (utf8Bytes "s3"))) [eC2w]).2.1,
       e2.hash = compute_hash (SignedEntry.to_dict { e2 with hash := "" }) ∧
       e2.signature = compute_signature (some (utf8Bytes "s3")) e2.hash) := by
  constructor
  · intro e he
    rw [List.mem_singleton] at he
    subst he
    rfl
  · exact C2_chain_invariant (some (utf8Bytes "s3")) _ (by
      intro e he
      rw [List.mem_singleton] at he
      subst he
      rfl)

theorem verify_chain_some (secret : Option (List Nat)) (lines : List String) :
    verify_chain secret (some lines)
      = verifyLoop secret { checked := 0, prev := .str "", bad := 0, notes := [] } lines >>=
          (fun st => pure [("ok", PyVal.bool (st.bad == 0)), ("checked", PyVal.int st.checked),
            ("bad", PyVal.int st.bad),
            ("notes", PyVal.list ((st.notes.take 20).map PyVal.str)),
            ("signature_enabled", PyVal.bool secret.isSome)]) := rfl

/-- C8 (corrected): when the log file exists, `verify_chain` (if it does not
raise) returns a mapping with exactly the keys `ok, checked, bad, notes,
signature_enabled` and at most the first 20 mismatch notes; when the log
file does NOT exist, the returned mapping has `ok=true, checked=0` but only
the keys `ok, checked, notes` — no `bad` and no `signature_enabled`. -/
theorem C8_report_shape (secret : Option (List Nat)) (lines : List String) :
    verify_chain secret Option.none
      = .ok [("ok", .bool true), ("checked", .int 0), ("notes", .list [.str "No log found."])]
    ∧ ∀ d, verify_chain secret (some lines) = .ok d →
        d.map Prod.fst = ["ok", "checked", "bad", "notes", "signature_enabled"] ∧
        ∀ xs, dictGet d "notes" = .list xs → xs.length ≤ 20 := by
  refine ⟨rfl, ?_⟩
  intro d h
  rw [verify_chain_some] at h
  cases hloop : verifyLoop secret { checked := 0, prev := .str "", bad := 0, notes := [] } lines with
  | error e =>
    rw [hloop] at h
    cases e
    rw [ebind_err] at h
    cases h
  | ok st =>
    rw [hloop, ebind_ok, epure_eq] at h
    injection h with h
    subst h
    constructor
    · rfl
    · intro xs hxs
      have hx : List.take 20 (List.map PyVal.str st.notes) = xs := by
        simpa [dictGet] using hxs
      subst hx
      rw [List.length_take]
      exact min_le_left _ _

/-- C8 counterexample: on a missing log file the returned mapping has only
the keys `ok, checked, notes` — the claim says every call returns a mapping
that also has `bad` and `signature_enabled`. -/
theorem C8_counterexample :
    Except.map (fun d => d.map Prod.fst) (verify_chain Option.none Option.none)
      = .ok ["ok", "checked", "notes"] := by
  rfl

/-- C8 witness: the shape theorem applied to an existing empty log file. -/
theorem C8_witness :
    ∃ d, verify_chain Option.none (some []) = .ok d ∧
      d.map Prod.fst = ["ok", "checked", "bad", "notes", "signature_enabled"] := by
  refine ⟨_, rfl, ?_⟩
  exact ((C8_report_shape Option.none []).2 _ rfl).1

/-- The verify loop raises as soon as it reaches a non-blank line that does
not parse as JSON (earlier lines may themselves raise on non-object JSON,
also an uncaught exception). -/
theorem verifyLoop_error_of_bad_line (secret : Option (List Nat)) :
    ∀ (lines : List String) (st : VState),
      (∃ l ∈ lines, pyStrip l ≠ "" ∧ jsonParse l = .error ()) →
      verifyLoop secret st lines = .error () := by
  intro lines
  induction lines with
  | nil =>
    intro st hbad
    obtain ⟨l, hl, -⟩ := hbad
    exact absurd hl (List.not_mem_nil l)
  | cons l ls ih =>
    intro st hbad
    obtain ⟨l2, hl2, hns, hpe⟩ := hbad
    rw [verifyLoop]
    by_cases hblank : pyStrip l = ""
    · rw [if_pos hblank]
      rcases List.mem_cons.mp hl2 with h | h
      · subst h
        exact absurd hblank hns
      · exact ih st ⟨l2, h, hns, hpe⟩
    · rw [if_neg hblank]
      rcases List.mem_cons.mp hl2 with h | h
      · subst h
        have hstep : verifyStep secret st l2 = .error () := by
          rw [verifyStep, hpe]
          rfl
        rw [hstep]
        rfl
      · cases hstep : verifyStep secret st l with
        | error e =>
          cases e
          rfl
        | ok st2 =>
          rw [ebind_ok]
          exact ih st2 ⟨l2, h, hns, hpe⟩

/-- C9 (confirmed): if the persisted log contains a non-blank line that is
not valid JSON, `verify_chain` raises the parse error to the caller instead
of counting the line as bad and continuing. -/
theorem C9_parse_error_raises (secret : Option (List Nat)) (lines : List String)
    (hbad : ∃ l ∈ lines, pyStrip l ≠ "" ∧ jsonParse l = .error ()) :
    verify_chain secret (some lines) = .error () := by
  rw [verify_chain_some, verifyLoop_error_of_bad_line secret lines _ hbad]
  rfl

/-- C9 witness: verification of a log whose single line is the invalid JSON
text `"x"` raises. -/
theorem C9_witness :
    (∃ l ∈ ["x"], pyStrip l ≠ "" ∧ jsonParse l = .error ()) ∧
    verify_chain Option.none (some ["x"]) = .error () := by
  refine ⟨⟨"x", by simp, by decide, rfl⟩, ?_⟩
  exact C9_parse_error_raises Option.none ["x"] ⟨"x", by simp, by decide, rfl⟩

end CivicOS
